import Mathlib

/-!
# go-sampa: Solar and Moon Position Algorithm

A shallow embedding of `Sampa.go` and the properties of its moon position
pipeline and of its eclipse geometry.

Conventions of the embedding:

* `float64` is read as the real numbers: the arithmetic is exact, `math.Sin`,
  `math.Acos`, `math.Sqrt`, ... are the real functions of Mathlib, and
  `math.Atan2 y x` is the argument of the complex number `x + y i`.  Rounding,
  infinities and NaN are outside the model.
* An output parameter `*float64` becomes a component of the returned tuple; where
  the code receives a pointer whose old contents it could read, the old contents
  are an argument.
* Indexing a slice out of range panics in Go; the summation over a term table
  therefore returns an `Option`.
* `spa.SunRadius` is a constant of the imported package `go-spa`; it is a
  parameter here.
* The imported packages `go-spa` and `go-bird` are collaborators: their constants,
  the method `Calculate` of `spa.Spa` and the constructor `bird.NewBird` are the
  fields of `Collaborators`, and a run of `Calculate` records the calls it makes
  to them.  A Go `error` is a string, nil is `none`.
-/

namespace Sampa

/-! ## Constants and term tables -/

/-- Function code: calculate all values except estimated solar irradiances. -/
def SampaNoIrr : ℕ := 0

/-- Function code: calculate all values. -/
def SampaAll : ℕ := 1

/-- Number of rows the periodic term summation visits. -/
def COUNT : ℕ := 60

/-- Column of the multiplier of the moon mean elongation. -/
def TermD : ℕ := 0

/-- Column of the multiplier of the sun mean anomaly. -/
def TermM : ℕ := 1

/-- Column of the multiplier of the moon mean anomaly. -/
def TermMpr : ℕ := 2

/-- Column of the multiplier of the moon argument of latitude. -/
def TermF : ℕ := 3

/-- Column of the sine coefficient. -/
def TermLb : ℕ := 4

/-- Column of the cosine coefficient. -/
def TermR : ℕ := 5

/-- Number of columns of a term table. -/
def TermCount : ℕ := 6

/-- Periodic terms of the Moon for longitude and distance; each row is D, M, Mpr, F, Lb, R. -/
def MlTerms : List (List ℝ) :=
  [[0, 0, 1, 0, 6288774, -20905355],
   [2, 0, -1, 0, 1274027, -3699111],
   [2, 0, 0, 0, 658314, -2955968],
   [0, 0, 2, 0, 213618, -569925],
   [0, 1, 0, 0, -185116, 48888],
   [0, 0, 0, 2, -114332, -3149],
   [2, 0, -2, 0, 58793, 246158],
   [2, -1, -1, 0, 57066, -152138],
   [2, 0, 1, 0, 53322, -170733],
   [2, -1, 0, 0, 45758, -204586],
   [0, 1, -1, 0, -40923, -129620],
   [1, 0, 0, 0, -34720, 108743],
   [0, 1, 1, 0, -30383, 104755],
   [2, 0, 0, -2, 15327, 10321],
   [0, 0, 1, 2, -12528, 0],
   [0, 0, 1, -2, 10980, 79661],
   [4, 0, -1, 0, 10675, -34782],
   [0, 0, 3, 0, 10034, -23210],
   [4, 0, -2, 0, 8548, -21636],
   [2, 1, -1, 0, -7888, 24208],
   [2, 1, 0, 0, -6766, 30824],
   [1, 0, -1, 0, -5163, -8379],
   [1, 1, 0, 0, 4987, -16675],
   [2, -1, 1, 0, 4036, -12831],
   [2, 0, 2, 0, 3994, -10445],
   [4, 0, 0, 0, 3861, -11650],
   [2, 0, -3, 0, 3665, 14403],
   [0, 1, -2, 0, -2689, -7003],
   [2, 0, -1, 2, -2602, 0],
   [2, -1, -2, 0, 2390, 10056],
   [1, 0, 1, 0, -2348, 6322],
   [2, -2, 0, 0, 2236, -9884],
   [0, 1, 2, 0, -2120, 5751],
   [0, 2, 0, 0, -2069, 0],
   [2, -2, -1, 0, 2048, -4950],
   [2, 0, 1, -2, -1773, 4130],
   [2, 0, 0, 2, -1595, 0],
   [4, -1, -1, 0, 1215, -3958],
   [0, 0, 2, 2, -1110, 0],
   [3, 0, -1, 0, -892, 3258],
   [2, 1, 1, 0, -810, 2616],
   [4, -1, -2, 0, 759, -1897],
   [0, 2, -1, 0, -713, -2117],
   [2, 2, -1, 0, -700, 2354],
   [2, 1, -2, 0, 691, 0],
   [2, -1, 0, -2, 596, 0],
   [4, 0, 1, 0, 549, -1423],
   [0, 0, 4, 0, 537, -1117],
   [4, -1, 0, 0, 520, -1571],
   [1, 0, -2, 0, -487, -1739],
   [2, 1, 0, -2, -399, 0],
   [0, 0, 2, -2, -381, -4421],
   [1, 1, 1, 0, 351, 0],
   [3, 0, -2, 0, -340, 0],
   [4, 0, -3, 0, 330, 0],
   [2, -1, 2, 0, 327, 0],
   [0, 2, 1, 0, -323, 1165],
   [1, 1, -1, 0, 299, 0],
   [2, 0, 3, 0, 294, 0],
   [2, 0, -1, -2, 0, 8752]]

/-- Periodic terms of the Moon for latitude; each row is D, M, Mpr, F, Lb, R. -/
def MbTerms : List (List ℝ) :=
  [[0, 0, 0, 1, 5128122, 0],
   [0, 0, 1, 1, 280602, 0],
   [0, 0, 1, -1, 277693, 0],
   [2, 0, 0, -1, 173237, 0],
   [2, 0, -1, 1, 55413, 0],
   [2, 0, -1, -1, 46271, 0],
   [2, 0, 0, 1, 32573, 0],
   [0, 0, 2, 1, 17198, 0],
   [2, 0, 1, -1, 9266, 0],
   [0, 0, 2, -1, 8822, 0],
   [2, -1, 0, -1, 8216, 0],
   [2, 0, -2, -1, 4324, 0],
   [2, 0, 1, 1, 4200, 0],
   [2, 1, 0, -1, -3359, 0],
   [2, -1, -1, 1, 2463, 0],
   [2, -1, 0, 1, 2211, 0],
   [2, -1, -1, -1, 2065, 0],
   [0, 1, -1, -1, -1870, 0],
   [4, 0, -1, -1, 1828, 0],
   [0, 1, 0, 1, -1794, 0],
   [0, 0, 0, 3, -1749, 0],
   [0, 1, -1, 1, -1565, 0],
   [1, 0, 0, 1, -1491, 0],
   [0, 1, 1, 1, -1475, 0],
   [0, 1, 1, -1, -1410, 0],
   [0, 1, 0, -1, -1344, 0],
   [1, 0, 0, -1, -1335, 0],
   [0, 0, 3, 1, 1107, 0],
   [4, 0, 0, -1, 1021, 0],
   [4, 0, -1, 1, 833, 0],
   [0, 0, 1, -3, 777, 0],
   [4, 0, -2, 1, 671, 0],
   [2, 0, 0, -3, 607, 0],
   [2, 0, 2, -1, 596, 0],
   [2, -1, 1, -1, 491, 0],
   [2, 0, -2, 1, -451, 0],
   [0, 0, 3, -1, 439, 0],
   [2, 0, 2, 1, 422, 0],
   [2, 0, -3, -1, 421, 0],
   [2, 1, -1, 1, -366, 0],
   [2, 1, 0, 1, -351, 0],
   [4, 0, 0, 1, 331, 0],
   [2, -1, 1, 1, 315, 0],
   [2, -2, 0, -1, 302, 0],
   [0, 0, 1, 3, -283, 0],
   [2, 1, 1, -1, -229, 0],
   [1, 1, 0, -1, 223, 0],
   [1, 1, 0, 1, 223, 0],
   [0, 1, -2, -1, -220, 0],
   [2, 1, -1, -1, -220, 0],
   [1, 0, 1, 1, -185, 0],
   [2, -1, -2, -1, 181, 0],
   [0, 1, 2, 1, -177, 0],
   [4, 0, -2, -1, 176, 0],
   [4, -1, -1, -1, 166, 0],
   [1, 0, 1, -1, -164, 0],
   [4, 0, 1, -1, 132, 0],
   [1, 0, -1, -1, -119, 0],
   [4, -1, 0, -1, 115, 0],
   [2, -2, 0, 1, 107, 0]]

/-! ## Data model

The records are generic in the type `F` of their numbers; the functions of this file
use them at `F = ℝ`, under the names of the Go types. -/

set_option genInjectivity false
set_option genSizeOf false
set_option genSizeOfSpec false

/-- The state of the `spa.Spa` collaborator as far as this package reads and writes
it: the function code set by `SetSPAFunction` and the values read through the getters. -/
structure SpaDataOf (F : Type) where
  function : ℕ
  jce : F
  delPsi : F
  epsilon : F
  nu : F
  longitude : F
  latitude : F
  elevation : F
  pressure : F
  temperature : F
  atmosRefract : F
  zenith : F
  azimuth : F
  r : F

/-- The state of the sun position collaborator over the real numbers. -/
abbrev SpaData : Type := SpaDataOf ℝ

/-- The state of the `bird.Bird` collaborator as far as this package reads it: the
atmospheric inputs and the six irradiances. -/
structure BirdDataOf (F : Type) where
  ozone : F
  water : F
  taua : F
  ba : F
  albedo : F
  directNormal : F
  directNormalMod : F
  globalHoriz : F
  globalHorizMod : F
  diffuseHoriz : F
  diffuseHorizMod : F

/-- The state of the clear sky collaborator over the real numbers. -/
abbrev BirdData : Type := BirdDataOf ℝ

/-- The record `mpa` of intermediate and final moon position values. -/
structure mpaOf (F : Type) where
  lPrime : F
  d : F
  m : F
  mPrime : F
  f : F
  l : F
  r : F
  b : F
  lamdaPrime : F
  beta : F
  capDelta : F
  pi : F
  lamda : F
  alpha : F
  delta : F
  h : F
  delAlpha : F
  deltaPrime : F
  alphaPrime : F
  hPrime : F
  e0 : F
  delE : F
  e : F
  zenith : F
  azimuthAstro : F
  azimuth : F

/-- The record `mpa` over the real numbers. -/
abbrev mpa : Type := mpaOf ℝ

/-- The record `sampa`: the two collaborators, the moon position record (absent
before the first calculation), the function code and the final output values. -/
structure sampaOf (F : Type) where
  spaData : SpaDataOf F
  mpaData : Option (mpaOf F)
  function : ℕ
  birdData : BirdDataOf F
  ems : F
  rs : F
  rm : F
  aSul : F
  aSulPct : F
  dni : F
  dniSul : F
  ghi : F
  ghiSul : F
  dhi : F
  dhiSul : F

/-- The record `sampa` over the real numbers. -/
abbrev sampa : Type := sampaOf ℝ

/-! ## Elementary helpers -/

/-- The function `math.Atan2 y x` on real arguments: the angle in `(-π, π]` of the
point `(x, y)`, and `0` at the origin. -/
noncomputable def atan2 (y x : ℝ) : ℝ :=
  Complex.arg ⟨x, y⟩

/-- Horner evaluation `(((a*x+b)*x+c)*x+d)*x + e`. -/
def fourthOrderPolynomial (a b c d e x : ℝ) : ℝ :=
  (((a * x + b) * x + c) * x + d) * x + e

/-- Horner evaluation `((a*x+b)*x+c)*x + d`. -/
def thirdOrderPolynomial (a b c d x : ℝ) : ℝ :=
  ((a * x + b) * x + c) * x + d

/-- Degrees to radians. -/
noncomputable def deg2rad (degrees : ℝ) : ℝ :=
  (Real.pi / 180) * degrees

/-- Radians to degrees. -/
noncomputable def rad2deg (radians : ℝ) : ℝ :=
  (180 / Real.pi) * radians

/-- Normalisation of an angle in degrees: the code divides by 360, keeps the
fractional part, scales back and adds 360 if the result is negative. -/
noncomputable def limitDegrees (degrees : ℝ) : ℝ :=
  let degrees1 := degrees / 360
  let limited := 360 * (degrees1 - (⌊degrees1⌋ : ℝ))
  if limited < 0 then limited + 360 else limited

/-! ## Fundamental arguments -/

/-- Moon mean longitude, in degrees. -/
noncomputable def moonMeanLongitude (jce : ℝ) : ℝ :=
  limitDegrees (fourthOrderPolynomial
    (-1 / 65194000) (1 / 538841) (-0.0015786) 481267.88123421 218.3164477 jce)

/-- Moon mean elongation, in degrees. -/
noncomputable def moonMeanElongation (jce : ℝ) : ℝ :=
  limitDegrees (fourthOrderPolynomial
    (-1 / 113065000) (1 / 545868) (-0.0018819) 445267.1114034 297.8501921 jce)

/-- Sun mean anomaly, in degrees. -/
noncomputable def sunMeanAnomaly (jce : ℝ) : ℝ :=
  limitDegrees (thirdOrderPolynomial
    (1 / 24490000) (-0.0001536) 35999.0502909 357.5291092 jce)

/-- Moon mean anomaly, in degrees. -/
noncomputable def moonMeanAnomaly (jce : ℝ) : ℝ :=
  limitDegrees (fourthOrderPolynomial
    (-1 / 14712000) (1 / 69699) 0.0087414 477198.8675055 134.9633964 jce)

/-- Moon argument of latitude, in degrees. -/
noncomputable def moonLatitudeArgument (jce : ℝ) : ℝ :=
  limitDegrees (fourthOrderPolynomial
    (1 / 863310000) (-1 / 3526000) (-0.0036539) 483202.0175233 93.2720950 jce)

/-! ## Periodic term summation -/

/-- The access `terms[i][j]`; `none` when an index is out of range. -/
def termAt (terms : List (List ℝ)) (i j : ℕ) : Option ℝ :=
  (terms[i]?).bind fun row => row[j]?

/-- One iteration of the loop of `moonPeriodicTermSummation`: row `i` is added to
the two accumulators `acc = (*sin_sum, *cos_sum)`. -/
noncomputable def moonPeriodicTermStep (d m m_prime f e : ℝ) (terms : List (List ℝ))
    (acc : ℝ × ℝ) (i : ℕ) : Option (ℝ × ℝ) :=
  (termAt terms i TermM).bind fun tM =>
  (termAt terms i TermD).bind fun tD =>
  (termAt terms i TermF).bind fun tF =>
  (termAt terms i TermMpr).bind fun tMpr =>
  (termAt terms i TermLb).bind fun tLb =>
  (termAt terms i TermR).bind fun tR =>
    let eMult := e ^ |tM|
    let trigArg := deg2rad (tD * d + tM * m + tF * f + tMpr * m_prime)
    some (acc.1 + eMult * tLb * Real.sin trigArg, acc.2 + eMult * tR * Real.cos trigArg)

/-- The summation of the periodic terms of a table.  The arguments `sin_sum` and
`cos_sum` are the contents of the two output locations on entry; the result is their
contents on return. -/
noncomputable def moonPeriodicTermSummation (d m m_prime f jce : ℝ) (terms : List (List ℝ))
    (sin_sum cos_sum : ℝ) : Option (ℝ × ℝ) :=
  let e := 1 - jce * (0.002516 + jce * 0.0000074)
  let s0 : ℝ × ℝ := (sin_sum, cos_sum)
  let s1 : ℝ × ℝ := (0, s0.2)
  let s2 : ℝ × ℝ := (s1.1, 0)
  (List.range COUNT).foldlM (moonPeriodicTermStep d m m_prime f e terms) s2

/-- Moon longitude and latitude `(lamdaPrime, beta)`, in degrees. -/
noncomputable def moonLongitudeAndLatitude (jce lPrime f mPrime l b : ℝ) : ℝ × ℝ :=
  let a1 := 119.75 + 131.849 * jce
  let a2 := 53.09 + 479264.290 * jce
  let a3 := 313.45 + 481266.484 * jce
  let deltaL := 3958 * Real.sin (deg2rad a1) + 318 * Real.sin (deg2rad a2)
    + 1962 * Real.sin (deg2rad (lPrime - f))
  let deltaB := -2235 * Real.sin (deg2rad lPrime) + 175 * Real.sin (deg2rad (a1 - f))
    + 127 * Real.sin (deg2rad (lPrime - mPrime)) + 382 * Real.sin (deg2rad a3)
    + 175 * Real.sin (deg2rad (a1 + f)) - 115 * Real.sin (deg2rad (lPrime + mPrime))
  (limitDegrees (lPrime + (l + deltaL) / 1000000), limitDegrees ((b + deltaB) / 1000000))

/-- Distance from earth to moon, in kilometers. -/
noncomputable def moonEarthDistance (r : ℝ) : ℝ :=
  385000.56 + r / 1000

/-- Moon equatorial horizontal parallax, in degrees. -/
noncomputable def moonEquatorialHorizParallax (delta : ℝ) : ℝ :=
  rad2deg (Real.arcsin (6378.14 / delta))

/-- Apparent moon longitude, in degrees. -/
def apparentMoonLongitude (lamda_prime del_psi : ℝ) : ℝ :=
  lamda_prime + del_psi

/-! ## Eclipse geometry -/

/-- Angular distance between the sun and moon centers, in degrees. -/
noncomputable def angularDistanceSunMoon (zen_sun azm_sun zen_moon azm_moon : ℝ) : ℝ :=
  let zs := deg2rad zen_sun
  let zm := deg2rad zen_moon
  rad2deg (Real.arccos (Real.cos zs * Real.cos zm
    + Real.sin zs * Real.sin zm * Real.cos (deg2rad (azm_sun - azm_moon))))

/-- Radius of the sun disk, in degrees. -/
noncomputable def sunDiskRadius (r : ℝ) : ℝ :=
  959.63 / (3600 * r)

/-- Radius of the moon disk, in degrees. -/
noncomputable def moonDiskRadius (e pi cap_delta : ℝ) : ℝ :=
  358473400 * (1 + Real.sin (deg2rad e) * Real.sin (deg2rad pi)) / (3600 * cap_delta)

/-- Area of the unshaded lune of the sun and its percentage of the sun disk:
the pair `(a_sul, a_sul_pct)`. -/
noncomputable def sulArea (ems rs rm : ℝ) : ℝ × ℝ :=
  let ems2 := ems * ems
  let rs2 := rs * rs
  let rm2 := rm * rm
  let ai : ℝ :=
    if ems < rs + rm then
      if ems ≤ |rs - rm| then
        Real.pi * rm2
      else
        let snum := ems2 + rs2 - rm2
        let m := (ems2 - rs2 + rm2) / (2 * ems)
        let sa := snum / (2 * ems)
        let h := Real.sqrt (4 * ems2 * rs2 - snum * snum) / (2 * ems)
        rs2 * Real.arccos (sa / rs) - h * sa + rm2 * Real.arccos (m / rm) - h * m
    else
      0
  let a_sul0 := Real.pi * rs2 - ai
  let a_sul := if a_sul0 < 0 then 0 else a_sul0
  (a_sul, a_sul * 100 / (Real.pi * rs2))

/-! ## Geocentric and topocentric coordinates -/

/-- Geocentric moon right ascension, in degrees. -/
noncomputable def geocentricRightAscension (lamda epsilon beta : ℝ) : ℝ :=
  let lamdaRad := deg2rad lamda
  let epsilonRad := deg2rad epsilon
  limitDegrees (rad2deg (atan2
    (Real.sin lamdaRad * Real.cos epsilonRad - Real.tan (deg2rad beta) * Real.sin epsilonRad)
    (Real.cos lamdaRad)))

/-- Geocentric moon declination, in degrees. -/
noncomputable def geocentricDeclination (beta epsilon lambda : ℝ) : ℝ :=
  let betaRad := deg2rad beta
  let epsilonRad := deg2rad epsilon
  rad2deg (Real.arcsin (Real.sin betaRad * Real.cos epsilonRad
    + Real.cos betaRad * Real.sin epsilonRad * Real.sin (deg2rad lambda)))

/-- Observer hour angle, in degrees. -/
noncomputable def observerHourAngle (nu longitude alphaDeg : ℝ) : ℝ :=
  limitDegrees (nu + longitude - alphaDeg)

/-- Moon right ascension parallax and topocentric declination:
the pair `(delAlpha, deltaPrime)`, in degrees. -/
noncomputable def rightAscensionParallaxAndTopocentricDec
    (latitude elevation xi h delta : ℝ) : ℝ × ℝ :=
  let latRad := deg2rad latitude
  let xiRad := deg2rad xi
  let hRad := deg2rad h
  let deltaRad := deg2rad delta
  let u := Real.arctan (0.99664719 * Real.tan latRad)
  let y := 0.99664719 * Real.sin u + elevation * Real.sin latRad / 6378140
  let x := Real.cos u + elevation * Real.cos latRad / 6378140
  let deltaAlphaRad := atan2 (-x * Real.sin xiRad * Real.sin hRad)
    (Real.cos deltaRad - x * Real.sin xiRad * Real.cos hRad)
  let deltaPrime := rad2deg (atan2
    ((Real.sin deltaRad - y * Real.sin xiRad) * Real.cos deltaAlphaRad)
    (Real.cos deltaRad - x * Real.sin xiRad * Real.cos hRad))
  (rad2deg deltaAlphaRad, deltaPrime)

/-- Topocentric moon right ascension, in degrees. -/
def topocentricRightAscension (alphaDeg deltaAlpha : ℝ) : ℝ :=
  alphaDeg + deltaAlpha

/-- Topocentric local hour angle, in degrees. -/
def topocentricLocalHourAngle (h deltaAlpha : ℝ) : ℝ :=
  h - deltaAlpha

/-- Topocentric elevation angle without refraction, in degrees. -/
noncomputable def topocentricElevationAngle (latitude deltaPrime hPrime : ℝ) : ℝ :=
  let latRad := deg2rad latitude
  let deltaPrimeRad := deg2rad deltaPrime
  rad2deg (Real.arcsin (Real.sin latRad * Real.sin deltaPrimeRad
    + Real.cos latRad * Real.cos deltaPrimeRad * Real.cos (deg2rad hPrime)))

/-- Atmospheric refraction correction, in degrees; `SunRadius` is the constant
`spa.SunRadius` of the imported package. -/
noncomputable def atmosphericRefractionCorrection (SunRadius : ℝ)
    (pressure temperature atmosRefract e0 : ℝ) : ℝ :=
  if e0 ≥ -1 * (SunRadius + atmosRefract) then
    (pressure / 1010) * (283 / (273 + temperature)) * 1.02
      / (60 * Real.tan (deg2rad (e0 + 10.3 / (e0 + 5.11))))
  else
    0

/-- Topocentric elevation angle with refraction, in degrees. -/
def topocentricElevationAngleCorrected (e0 deltaE : ℝ) : ℝ :=
  e0 + deltaE

/-- Topocentric zenith angle, in degrees. -/
def topocentricZenithAngle (e : ℝ) : ℝ :=
  90 - e

/-- Topocentric azimuth angle, westward from south, in degrees. -/
noncomputable def topocentricAzimuthAngleAstro (hPrime latitude deltaPrime : ℝ) : ℝ :=
  let hPrimeRad := deg2rad hPrime
  let latRad := deg2rad latitude
  limitDegrees (rad2deg (atan2 (Real.sin hPrimeRad)
    (Real.cos hPrimeRad * Real.sin latRad - Real.tan (deg2rad deltaPrime) * Real.cos latRad)))

/-- Topocentric azimuth angle, eastward from north, in degrees. -/
noncomputable def topocentricAzimuthAngle (azimuthAstro : ℝ) : ℝ :=
  limitDegrees (azimuthAstro + 180)

/-! ## The moon position pipeline -/

/-- The method `mpa.Calculate` on a zeroed record, as `CalculateMpa` calls it: all
moon position values from the values the sun position collaborator of `s` reports.
Both summations receive zeroed output locations. -/
noncomputable def mpa.Calculate (SunRadius : ℝ) (s : sampa) : Option mpa :=
  let spa := s.spaData
  let lPrime := moonMeanLongitude spa.jce
  let d := moonMeanElongation spa.jce
  let m := sunMeanAnomaly spa.jce
  let mPrime := moonMeanAnomaly spa.jce
  let f := moonLatitudeArgument spa.jce
  (moonPeriodicTermSummation d m mPrime f spa.jce MlTerms 0 0).bind fun lr =>
  (moonPeriodicTermSummation d m mPrime f spa.jce MbTerms 0 0).bind fun bt =>
    let l := lr.1
    let r := lr.2
    let b := bt.1
    let ll := moonLongitudeAndLatitude spa.jce lPrime f mPrime l b
    let lamdaPrime := ll.1
    let beta := ll.2
    let capDelta := moonEarthDistance r
    let pi := moonEquatorialHorizParallax capDelta
    let lamda := apparentMoonLongitude lamdaPrime spa.delPsi
    let alpha := geocentricRightAscension lamda spa.epsilon beta
    let delta := geocentricDeclination beta spa.epsilon lamda
    let h := observerHourAngle spa.nu spa.longitude alpha
    let pd := rightAscensionParallaxAndTopocentricDec spa.latitude spa.elevation pi h delta
    let delAlpha := pd.1
    let deltaPrime := pd.2
    let alphaPrime := topocentricRightAscension alpha delAlpha
    let hPrime := topocentricLocalHourAngle h delAlpha
    let e0 := topocentricElevationAngle spa.latitude deltaPrime hPrime
    let delE := atmosphericRefractionCorrection SunRadius spa.pressure spa.temperature
      spa.atmosRefract e0
    let e := topocentricElevationAngleCorrected e0 delE
    let zenith := topocentricZenithAngle e
    let azimuthAstro := topocentricAzimuthAngleAstro hPrime spa.latitude deltaPrime
    let azimuth := topocentricAzimuthAngle azimuthAstro
    some {
      lPrime := lPrime, d := d, m := m, mPrime := mPrime, f := f, l := l, r := r, b := b,
      lamdaPrime := lamdaPrime, beta := beta, capDelta := capDelta, pi := pi, lamda := lamda,
      alpha := alpha, delta := delta, h := h, delAlpha := delAlpha, deltaPrime := deltaPrime,
      alphaPrime := alphaPrime, hPrime := hPrime, e0 := e0, delE := delE, e := e,
      zenith := zenith, azimuthAstro := azimuthAstro, azimuth := azimuth }

/-- The method `CalculateMpa`: a fresh record filled by `mpa.Calculate`. -/
noncomputable def sampa.CalculateMpa (SunRadius : ℝ) (s : sampa) : Option mpa :=
  mpa.Calculate SunRadius s

/-! ## Collaborators and the orchestrating methods -/

/-- A Go `error` value that is not nil. -/
abbrev GoError : Type := String

/-- The calls made to the two collaborators, for the record of a run: the setter
`SetSPAFunction` with its argument, the method `Calculate` of the sun position
collaborator, and the constructor `bird.NewBird` with its nine arguments. -/
inductive Call where
  | SetSPAFunction (code : ℕ)
  | spaCalculate
  | NewBird (zenith r pressure ozone water taua ba albedo dni_mod : ℝ)

/-- What this package takes from the imported packages `go-spa` and `go-bird`: the
constants `spa.SunRadius` and `spa.SpaZa`, the method `Calculate` of `spa.Spa` (the new
state of the collaborator and the error it returns, if any) and the constructor
`bird.NewBird` (a clear sky model or an error). -/
structure CollaboratorsOf (F : Type) where
  SunRadius : F
  SpaZa : ℕ
  spaCalculate : SpaDataOf F → SpaDataOf F × Option GoError
  NewBird : F → F → F → F → F → F → F → F → F → Except GoError (BirdDataOf F)

/-- The collaborators over the real numbers. -/
abbrev Collaborators : Type := CollaboratorsOf ℝ

/-- The result of a run of `Calculate` or `estimateIrr`: the state of the receiver on
return, the returned error (`none` for nil) and the calls made to the collaborators. -/
structure Outcome where
  state : sampa
  err : Option GoError
  calls : List Call

/-- The setter `SetSPAFunction` of the sun position collaborator stores the code. -/
def SetSPAFunction (spa : SpaData) (code : ℕ) : SpaData :=
  { spa with function := code }

/-- The method `SetFunction`. -/
def sampa.SetFunction (s : sampa) (f : ℕ) : sampa :=
  { s with function := f }

/-- The method `estimateIrr`: one call of the clear sky model; on an error the receiver
is left as it is, otherwise the model and its six irradiances are stored. -/
noncomputable def sampa.estimateIrr (c : Collaborators) (s : sampa) : Outcome :=
  let zenith := s.spaData.zenith
  let r := s.spaData.r
  let pressure := s.spaData.pressure
  let ozone := s.birdData.ozone
  let water := s.birdData.water
  let taua := s.birdData.taua
  let ba := s.birdData.ba
  let albedo := s.birdData.albedo
  let dni_mod := s.aSulPct / 100
  let calls := [Call.NewBird zenith r pressure ozone water taua ba albedo dni_mod]
  match c.NewBird zenith r pressure ozone water taua ba albedo dni_mod with
  | Except.error err => { state := s, err := some err, calls := calls }
  | Except.ok b =>
    { state := { s with
        birdData := b,
        dni := b.directNormal,
        dniSul := b.directNormalMod,
        ghi := b.globalHoriz,
        ghiSul := b.globalHorizMod,
        dhi := b.diffuseHoriz,
        dhiSul := b.diffuseHorizMod },
      err := none, calls := calls }

/-- The method `Calculate` of `sampa`. -/
noncomputable def sampa.Calculate (c : Collaborators) (s : sampa) : Option Outcome :=
  let spa1 := SetSPAFunction s.spaData 0
  let spa2 := SetSPAFunction spa1 c.SpaZa
  let spaRun := c.spaCalculate spa2
  let s1 : sampa := { s with spaData := spaRun.1 }
  let calls := [Call.SetSPAFunction 0, Call.SetSPAFunction c.SpaZa, Call.spaCalculate]
  match spaRun.2 with
  | some err => some { state := s1, err := some err, calls := calls }
  | none =>
    (sampa.CalculateMpa c.SunRadius s1).bind fun m =>
      let s2 : sampa := { s1 with mpaData := some m }
      let s3 : sampa := { s2 with
        ems := angularDistanceSunMoon s2.spaData.zenith s2.spaData.azimuth m.zenith m.azimuth }
      let s4 : sampa := { s3 with rs := sunDiskRadius s3.spaData.r }
      let s5 : sampa := { s4 with rm := moonDiskRadius m.e m.pi m.capDelta }
      let area := sulArea s5.ems s5.rs s5.rm
      let s6 : sampa := { s5 with aSul := area.1, aSulPct := area.2 }
      if s6.function = SampaAll then
        let irr := sampa.estimateIrr c s6
        some { state := irr.state, err := irr.err, calls := calls ++ irr.calls }
      else
        some { state := s6, err := none, calls := calls }

/-- The constructor `NewSampa`: a zeroed record with the two collaborators and the
function code `SampaAll`, and the outcome of its first `Calculate`. -/
noncomputable def NewSampa (c : Collaborators) (sp : SpaData) (bi : BirdData) : Option Outcome :=
  sampa.Calculate c
    { spaData := sp, mpaData := none, function := SampaAll, birdData := bi,
      ems := 0, rs := 0, rm := 0, aSul := 0, aSulPct := 0,
      dni := 0, dniSul := 0, ghi := 0, ghiSul := 0, dhi := 0, dhiSul := 0 }

/-! ## Auxiliary definitions of the statements -/

/-- Entry `j` of row `i` of a term table, and `0` when there is no such entry. -/
noncomputable def tableCol (terms : List (List ℝ)) (i j : ℕ) : ℝ :=
  (termAt terms i j).getD 0

/-- Radicand of the half-chord of the lens: `4 ems² rs² - (ems² + rs² - rm²)²`. -/
def chordRadicand (ems rs rm : ℝ) : ℝ :=
  4 * (ems * ems) * (rs * rs) - (ems * ems + rs * rs - rm * rm) * (ems * ems + rs * rs - rm * rm)

/-- Intersection area `ai` of the partial overlap branch of `sulArea`. -/
noncomputable def lensArea (ems rs rm : ℝ) : ℝ :=
  rs * rs * Real.arccos ((ems * ems + rs * rs - rm * rm) / (2 * ems) / rs)
    - Real.sqrt (chordRadicand ems rs rm) / (2 * ems) * ((ems * ems + rs * rs - rm * rm) / (2 * ems))
    + rm * rm * Real.arccos ((ems * ems - rs * rs + rm * rm) / (2 * ems) / rm)
    - Real.sqrt (chordRadicand ems rs rm) / (2 * ems) * ((ems * ems - rs * rs + rm * rm) / (2 * ems))

/-- The clamped unshaded area and its percentage, from an intersection area. -/
noncomputable def sulFromAi (rs ai : ℝ) : ℝ × ℝ :=
  ((if Real.pi * (rs * rs) - ai < 0 then 0 else Real.pi * (rs * rs) - ai),
   (if Real.pi * (rs * rs) - ai < 0 then 0 else Real.pi * (rs * rs) - ai) * 100
     / (Real.pi * (rs * rs)))

/-- The state of the sun position collaborator when its `Calculate` is called: the
function code has been set to `0` and then to `spa.SpaZa`. -/
def spaBeforeRun (c : Collaborators) (s : sampa) : SpaData :=
  SetSPAFunction (SetSPAFunction s.spaData 0) c.SpaZa

/-- The receiver after the sun position collaborator has run. -/
def sampa.afterSpa (c : Collaborators) (s : sampa) : sampa :=
  { s with spaData := (c.spaCalculate (spaBeforeRun c s)).1 }

/-- The receiver after the moon position record `m` and the eclipse geometry have been
stored. -/
noncomputable def sampa.withGeometry (s : sampa) (m : mpa) : sampa :=
  { s with
    mpaData := some m,
    ems := angularDistanceSunMoon s.spaData.zenith s.spaData.azimuth m.zenith m.azimuth,
    rs := sunDiskRadius s.spaData.r,
    rm := moonDiskRadius m.e m.pi m.capDelta,
    aSul := (sulArea (angularDistanceSunMoon s.spaData.zenith s.spaData.azimuth m.zenith m.azimuth)
      (sunDiskRadius s.spaData.r) (moonDiskRadius m.e m.pi m.capDelta)).1,
    aSulPct := (sulArea (angularDistanceSunMoon s.spaData.zenith s.spaData.azimuth m.zenith
      m.azimuth) (sunDiskRadius s.spaData.r) (moonDiskRadius m.e m.pi m.capDelta)).2 }

/-- Sun position values of the reference scenario, for the examples. -/
noncomputable def exampleSpa : SpaData :=
  { function := 3, jce := 0.0955, delPsi := 0.004441121, epsilon := 23.439252, nu := 300,
    longitude := 143.36167, latitude := 24.61167, elevation := 0, pressure := 1000,
    temperature := 11, atmosRefract := 0.5667, zenith := 14.512686, azimuth := 104.387917,
    r := 1.016024 }

/-- A clear sky model whose six irradiances are `v`, for the examples. -/
noncomputable def exampleBird (v : ℝ) : BirdData :=
  { ozone := 0.3, water := 1.5, taua := 0.07637, ba := 0.85, albedo := 0.2,
    directNormal := v, directNormalMod := v, globalHoriz := v, globalHorizMod := v,
    diffuseHoriz := v, diffuseHorizMod := v }

/-- Collaborators that always succeed: the sun position collaborator keeps its state
and the clear sky model reports the irradiance `1` six times. -/
noncomputable def exampleCollaborators : Collaborators :=
  { SunRadius := 0.26667, SpaZa := 0,
    spaCalculate := fun spa => (spa, none),
    NewBird := fun _ _ _ _ _ _ _ _ _ => Except.ok (exampleBird 1) }

/-- Collaborators whose sun position collaborator fails. -/
noncomputable def exampleSpaFailing : Collaborators :=
  { exampleCollaborators with spaCalculate := fun spa => (spa, some "spa") }

/-- Collaborators whose clear sky model fails. -/
noncomputable def exampleBirdFailing : Collaborators :=
  { exampleCollaborators with NewBird := fun _ _ _ _ _ _ _ _ _ => Except.error "bird" }

/-- A receiver with the reference sun position values, every output field `7` and no
moon position record, for the examples. -/
noncomputable def exampleSampa (function : ℕ) : sampa :=
  { spaData := exampleSpa, mpaData := none, function := function, birdData := exampleBird 7,
    ems := 7, rs := 7, rm := 7, aSul := 7, aSulPct := 7,
    dni := 7, dniSul := 7, ghi := 7, ghiSul := 7, dhi := 7, dhiSul := 7 }

/-- A second receiver: the sun position collaborator reports another zenith, azimuth
and distance and has another function code, and the mode, the clear sky model and the
output fields differ from those of `exampleSampa`. -/
noncomputable def exampleSampaOther : sampa :=
  { spaData := { exampleSpa with function := 0, zenith := 1, azimuth := 2, r := 3 },
    mpaData := none, function := SampaNoIrr, birdData := exampleBird 1,
    ems := 1, rs := 2, rm := 3, aSul := 4, aSulPct := 5,
    dni := 1, dniSul := 2, ghi := 3, ghiSul := 4, dhi := 5, dhiSul := 6 }

/-! ## Properties

### Angle normalisation -/

/-- Both term tables have 60 rows of 6 entries, an index below 60 names one of the rows,
and `tableCol` reads an entry of a table with the default `0`. -/
theorem tables_facts :
    (MlTerms.length = 60 ∧ (∀ row ∈ MlTerms, row.length = 6)
        ∧ ∀ i, i < 60 → MlTerms.getD i [] ∈ MlTerms)
      ∧ (MbTerms.length = 60 ∧ (∀ row ∈ MbTerms, row.length = 6)
        ∧ ∀ i, i < 60 → MbTerms.getD i [] ∈ MbTerms)
      ∧ ∀ (terms : List (List ℝ)) (i j : ℕ),
          tableCol terms i j = (terms.getD i []).getD j 0 := by
  have hshape : ∀ (terms : List (List ℝ)) (n k : ℕ),
      terms.map List.length = List.replicate n k →
      terms.length = n ∧ (∀ row ∈ terms, row.length = k)
        ∧ ∀ i, i < n → terms.getD i [] ∈ terms := by
    intro terms n k h
    have hlen : terms.length = n := by
      have := congrArg List.length h
      simpa using this
    refine ⟨hlen, ?_, ?_⟩
    · intro row hrow
      have hmem : row.length ∈ terms.map List.length := List.mem_map_of_mem _ hrow
      rw [h] at hmem
      exact List.eq_of_mem_replicate hmem
    · intro i hi
      have hi2 : i < terms.length := by rw [hlen]; exact hi
      rw [List.getD_eq_getElem _ _ hi2]
      exact List.getElem_mem hi2
  have hml : MlTerms.map List.length = List.replicate 60 6 := by
    delta MlTerms
    simp
  have hmb : MbTerms.map List.length = List.replicate 60 6 := by
    delta MbTerms
    simp
  refine ⟨hshape MlTerms 60 6 hml, hshape MbTerms 60 6 hmb, ?_⟩
  intro terms i j
  delta tableCol termAt
  rw [List.getD_eq_getElem?_getD, List.getD_eq_getElem?_getD]
  cases terms[i]? with
  | none => simp
  | some row => simp

/-- The summation over a table with at least 60 rows that have the columns 0 to 5
returns the two sums over the first 60 rows; on the two term tables it returns, and over
`MbTerms` the cosine sum is `0`. -/
theorem summation_facts (d m m_prime f jce sin_sum cos_sum : ℝ) :
    (∀ terms : List (List ℝ), 60 ≤ terms.length → (∀ row ∈ terms, 6 ≤ row.length) →
        moonPeriodicTermSummation d m m_prime f jce terms sin_sum cos_sum
          = some (
              ∑ i in Finset.range 60,
                (1 - jce * (0.002516 + jce * 0.0000074)) ^ |tableCol terms i 1|
                  * tableCol terms i 4
                  * Real.sin (deg2rad (tableCol terms i 0 * d + tableCol terms i 1 * m
                      + tableCol terms i 2 * m_prime + tableCol terms i 3 * f)),
              ∑ i in Finset.range 60,
                (1 - jce * (0.002516 + jce * 0.0000074)) ^ |tableCol terms i 1|
                  * tableCol terms i 5
                  * Real.cos (deg2rad (tableCol terms i 0 * d + tableCol terms i 1 * m
                      + tableCol terms i 2 * m_prime + tableCol terms i 3 * f))))
      ∧ (∃ lr, moonPeriodicTermSummation d m m_prime f jce MlTerms sin_sum cos_sum = some lr)
      ∧ ∃ b, moonPeriodicTermSummation d m m_prime f jce MbTerms sin_sum cos_sum
          = some (b, 0) := by
  have hgen : ∀ terms : List (List ℝ), 60 ≤ terms.length → (∀ row ∈ terms, 6 ≤ row.length) →
      moonPeriodicTermSummation d m m_prime f jce terms sin_sum cos_sum
        = some (
            ∑ i in Finset.range 60,
              (1 - jce * (0.002516 + jce * 0.0000074)) ^ |tableCol terms i 1|
                * tableCol terms i 4
                * Real.sin (deg2rad (tableCol terms i 0 * d + tableCol terms i 1 * m
                    + tableCol terms i 2 * m_prime + tableCol terms i 3 * f)),
            ∑ i in Finset.range 60,
              (1 - jce * (0.002516 + jce * 0.0000074)) ^ |tableCol terms i 1|
                * tableCol terms i 5
                * Real.cos (deg2rad (tableCol terms i 0 * d + tableCol terms i 1 * m
                    + tableCol terms i 2 * m_prime + tableCol terms i 3 * f))) := by
    intro terms hlen hrow
    have hat : ∀ i j, i < terms.length → j < 6 →
        termAt terms i j = some (tableCol terms i j) := by
      intro i j hi hj
      have hr : 6 ≤ (terms[i]).length := hrow _ (List.getElem_mem hi)
      have hj2 : j < (terms[i]).length := by omega
      delta tableCol termAt
      simp [List.getElem?_eq_getElem hi, List.getElem?_eq_getElem hj2]
    have hstep : ∀ (e : ℝ) (acc : ℝ × ℝ) (i : ℕ), i < terms.length →
        moonPeriodicTermStep d m m_prime f e terms acc i
          = some (acc.1 + e ^ |tableCol terms i 1| * tableCol terms i 4
              * Real.sin (deg2rad (tableCol terms i 0 * d + tableCol terms i 1 * m
                  + tableCol terms i 2 * m_prime + tableCol terms i 3 * f)),
            acc.2 + e ^ |tableCol terms i 1| * tableCol terms i 5
              * Real.cos (deg2rad (tableCol terms i 0 * d + tableCol terms i 1 * m
                  + tableCol terms i 2 * m_prime + tableCol terms i 3 * f))) := by
      intro e acc i hi
      have harg : tableCol terms i 0 * d + tableCol terms i 1 * m + tableCol terms i 3 * f
            + tableCol terms i 2 * m_prime
          = tableCol terms i 0 * d + tableCol terms i 1 * m + tableCol terms i 2 * m_prime
            + tableCol terms i 3 * f := by ring
      delta moonPeriodicTermStep TermM TermD TermF TermMpr TermLb TermR
      simp only [hat i 0 hi (by norm_num), hat i 1 hi (by norm_num), hat i 2 hi (by norm_num),
        hat i 3 hi (by norm_num), hat i 4 hi (by norm_num), hat i 5 hi (by norm_num),
        Option.some_bind, harg]
    have hfold : ∀ (e : ℝ) (n : ℕ), n ≤ terms.length → ∀ acc : ℝ × ℝ,
        (List.range n).foldlM (moonPeriodicTermStep d m m_prime f e terms) acc
          = some (acc.1 + ∑ i in Finset.range n, e ^ |tableCol terms i 1| * tableCol terms i 4
              * Real.sin (deg2rad (tableCol terms i 0 * d + tableCol terms i 1 * m
                  + tableCol terms i 2 * m_prime + tableCol terms i 3 * f)),
            acc.2 + ∑ i in Finset.range n, e ^ |tableCol terms i 1| * tableCol terms i 5
              * Real.cos (deg2rad (tableCol terms i 0 * d + tableCol terms i 1 * m
                  + tableCol terms i 2 * m_prime + tableCol terms i 3 * f))) := by
      intro e n
      induction n with
      | zero => intro _ acc; simp
      | succ k ih =>
        intro hk acc
        rw [List.range_succ, List.foldlM_append, ih (by omega) acc]
        simp only [Option.some_bind, List.foldlM_cons, List.foldlM_nil, Option.bind_eq_bind]
        rw [hstep e _ k (by omega)]
        simp only [Option.some_bind, Finset.sum_range_succ, add_assoc]
        rfl
    delta moonPeriodicTermSummation COUNT
    simp only []
    rw [hfold _ 60 hlen]
    simp
  obtain ⟨⟨hl, hlrow, -⟩, ⟨hb, hbrow, hbmem⟩, hcol⟩ := tables_facts
  refine ⟨hgen, ⟨_, hgen MlTerms hl.ge (fun row hrow => (hlrow row hrow).ge)⟩, ?_⟩
  have hsixth : ∀ row ∈ MbTerms, row.getD 5 0 = 0 := by
    delta MbTerms
    simp
  have hzero : ∑ i in Finset.range 60,
      (1 - jce * (0.002516 + jce * 0.0000074)) ^ |tableCol MbTerms i 1|
        * tableCol MbTerms i 5
        * Real.cos (deg2rad (tableCol MbTerms i 0 * d + tableCol MbTerms i 1 * m
            + tableCol MbTerms i 2 * m_prime + tableCol MbTerms i 3 * f)) = 0 := by
    apply Finset.sum_eq_zero
    intro i hi
    have h5 : tableCol MbTerms i 5 = 0 := by
      rw [hcol]; exact hsixth _ (hbmem i (Finset.mem_range.mp hi))
    rw [h5]; ring
  have hsum := hgen MbTerms hb.ge (fun row hrow => (hbrow row hrow).ge)
  rw [hzero] at hsum
  exact ⟨_, hsum⟩

/-! ### The orchestrating methods -/

/-- The two ways a run of `Calculate` goes: with an error of the sun position
collaborator, and past it. -/
theorem calculate_cases (c : Collaborators) (s : sampa) :
    (∀ e, (c.spaCalculate (spaBeforeRun c s)).2 = some e →
        sampa.Calculate c s
          = some { state := sampa.afterSpa c s, err := some e,
                   calls := [Call.SetSPAFunction 0, Call.SetSPAFunction c.SpaZa,
                     Call.spaCalculate] })
      ∧ ((c.spaCalculate (spaBeforeRun c s)).2 = none →
        ∃ m, sampa.CalculateMpa c.SunRadius (sampa.afterSpa c s) = some m
          ∧ sampa.Calculate c s
            = some (if s.function = SampaAll then
                { state := (sampa.estimateIrr c ((sampa.afterSpa c s).withGeometry m)).state,
                  err := (sampa.estimateIrr c ((sampa.afterSpa c s).withGeometry m)).err,
                  calls := [Call.SetSPAFunction 0, Call.SetSPAFunction c.SpaZa,
                      Call.spaCalculate]
                    ++ (sampa.estimateIrr c ((sampa.afterSpa c s).withGeometry m)).calls }
              else
                { state := (sampa.afterSpa c s).withGeometry m, err := none,
                  calls := [Call.SetSPAFunction 0, Call.SetSPAFunction c.SpaZa,
                    Call.spaCalculate] })) := by
  constructor
  · intro e h
    delta spaBeforeRun at h
    delta sampa.Calculate
    simp only [h]
    rfl
  · intro h
    have hsome : ∃ m, sampa.CalculateMpa c.SunRadius (sampa.afterSpa c s) = some m := by
      obtain ⟨-, ⟨lr, hlr⟩, ⟨b, hbt⟩⟩ := summation_facts
        (moonMeanElongation (sampa.afterSpa c s).spaData.jce)
        (sunMeanAnomaly (sampa.afterSpa c s).spaData.jce)
        (moonMeanAnomaly (sampa.afterSpa c s).spaData.jce)
        (moonLatitudeArgument (sampa.afterSpa c s).spaData.jce)
        (sampa.afterSpa c s).spaData.jce 0 0
      delta sampa.CalculateMpa mpa.Calculate
      simp only [hlr, hbt, Option.some_bind]
      exact ⟨_, rfl⟩
    obtain ⟨m, hm⟩ := hsome
    refine ⟨m, hm, ?_⟩
    have hm2 : sampa.CalculateMpa c.SunRadius
        { s with spaData := (c.spaCalculate (SetSPAFunction (SetSPAFunction s.spaData 0)
          c.SpaZa)).1 } = some m := hm
    delta spaBeforeRun at h
    delta sampa.Calculate
    simp only [h, hm2, Option.some_bind]
    by_cases hf : s.function = SampaAll
    · simp only [if_pos hf]
      rfl
    · simp only [if_neg hf]
      rfl

/-! ### Unshaded area: case analysis and the lens area -/

/-- The three branches of `sulArea`, and the partial overlap regime: there the separation
and the radicand are positive, the two arguments of the arc cosine lie strictly between
`-1` and `1`, and the lens area is the sum of two circular segments
`r² (θ - sin θ cos θ)`, hence not negative. -/
theorem sulArea_facts (ems rs rm : ℝ) :
    ((rs + rm ≤ ems → sulArea ems rs rm = sulFromAi rs 0)
      ∧ (ems < rs + rm → ems ≤ |rs - rm| →
          sulArea ems rs rm = sulFromAi rs (Real.pi * (rm * rm)))
      ∧ (ems < rs + rm → |rs - rm| < ems →
          sulArea ems rs rm = sulFromAi rs (lensArea ems rs rm)))
      ∧ (0 < rs → 0 < rm → ems < rs + rm → |rs - rm| < ems →
        0 < ems ∧ 0 < chordRadicand ems rs rm
          ∧ (-1 < (ems * ems + rs * rs - rm * rm) / (2 * ems) / rs
              ∧ (ems * ems + rs * rs - rm * rm) / (2 * ems) / rs < 1)
          ∧ (-1 < (ems * ems - rs * rs + rm * rm) / (2 * ems) / rm
              ∧ (ems * ems - rs * rs + rm * rm) / (2 * ems) / rm < 1)
          ∧ lensArea ems rs rm
              = rs * rs * (Real.arccos ((ems * ems + rs * rs - rm * rm) / (2 * ems) / rs)
                  - Real.sin (Real.arccos ((ems * ems + rs * rs - rm * rm) / (2 * ems) / rs))
                    * Real.cos (Real.arccos ((ems * ems + rs * rs - rm * rm) / (2 * ems) / rs)))
                + rm * rm * (Real.arccos ((ems * ems - rs * rs + rm * rm) / (2 * ems) / rm)
                  - Real.sin (Real.arccos ((ems * ems - rs * rs + rm * rm) / (2 * ems) / rm))
                    * Real.cos (Real.arccos ((ems * ems - rs * rs + rm * rm) / (2 * ems) / rm)))
          ∧ 0 ≤ lensArea ems rs rm
          ∧ lensArea ems rs rm
              = rs * rs * Real.arccos ((ems * ems + rs * rs - rm * rm) / (2 * ems) / rs)
                + rm * rm * Real.arccos ((ems * ems - rs * rs + rm * rm) / (2 * ems) / rm)
                - Real.sqrt (chordRadicand ems rs rm) / 2) := by
  refine ⟨?_, fun hrs hrm h1 h2 => ?_⟩
  · refine ⟨fun h => ?_, fun h1 h2 => ?_, fun h1 h2 => ?_⟩
    · delta sulArea sulFromAi
      simp only [if_neg (not_lt.mpr h)]
    · delta sulArea sulFromAi
      simp only [if_pos h1, if_pos h2]
    · delta sulArea sulFromAi lensArea chordRadicand
      simp only [if_pos h1, if_neg (not_le.mpr h2)]
  · have he : 0 < ems := lt_of_le_of_lt (abs_nonneg _) h2
    obtain ⟨h3, h4⟩ := abs_lt.mp h2
    have hfactor : chordRadicand ems rs rm
        = (rs + rm - ems) * (rm + ems - rs) * (ems + rs - rm) * (ems + rs + rm) := by
      delta chordRadicand; ring
    have hR : 0 < chordRadicand ems rs rm := by
      rw [hfactor]
      exact mul_pos (mul_pos (mul_pos (by linarith) (by linarith)) (by linarith)) (by linarith)
    have hR1 : 0 < 4 * (ems * ems) * (rs * rs)
        - (ems * ems + rs * rs - rm * rm) * (ems * ems + rs * rs - rm * rm) := hR
    have hsymm : chordRadicand ems rs rm
        = 4 * (ems * ems) * (rm * rm)
          - (ems * ems - rs * rs + rm * rm) * (ems * ems - rs * rs + rm * rm) := by
      delta chordRadicand; ring
    have hR2 : 0 < 4 * (ems * ems) * (rm * rm)
        - (ems * ems - rs * rs + rm * rm) * (ems * ems - rs * rs + rm * rm) := by
      rw [← hsymm]; exact hR
    -- one circular segment
    have hratio : ∀ a p : ℝ, 0 < a → 0 < 4 * (ems * ems) * (a * a) - p * p →
        -1 < p / (2 * ems) / a ∧ p / (2 * ems) / a < 1 := by
      intro a p ha hp
      have hsq : 1 - (p / (2 * ems) / a) ^ 2
          = (4 * (ems * ems) * (a * a) - p * p) / (2 * ems * a) ^ 2 := by
        field_simp; ring
      have h : 0 < 1 - (p / (2 * ems) / a) ^ 2 := by
        rw [hsq]; positivity
      have h2 : (p / (2 * ems) / a) ^ 2 < 1 ^ 2 := by linarith
      exact abs_lt.mp (by simpa using abs_lt_of_sq_lt_sq h2 zero_le_one)
    have hseg : ∀ a p : ℝ, 0 < a → 0 < 4 * (ems * ems) * (a * a) - p * p →
        a * a * Real.arccos (p / (2 * ems) / a)
            - Real.sqrt (4 * (ems * ems) * (a * a) - p * p) / (2 * ems) * (p / (2 * ems))
          = a * a * (Real.arccos (p / (2 * ems) / a)
              - Real.sin (Real.arccos (p / (2 * ems) / a))
                * Real.cos (Real.arccos (p / (2 * ems) / a))) := by
      intro a p ha hp
      have hea : 0 < 2 * ems * a := by positivity
      obtain ⟨hlo, hhi⟩ := hratio a p ha hp
      have hsin : Real.sin (Real.arccos (p / (2 * ems) / a))
          = Real.sqrt (4 * (ems * ems) * (a * a) - p * p) / (2 * ems * a) := by
        rw [Real.sin_arccos]
        have : 1 - (p / (2 * ems) / a) ^ 2
            = (4 * (ems * ems) * (a * a) - p * p) / (2 * ems * a) ^ 2 := by
          field_simp; ring
        rw [this, Real.sqrt_div hp.le, Real.sqrt_sq hea.le]
      rw [hsin, Real.cos_arccos hlo.le hhi.le]
      field_simp
      ring
    have hangle : ∀ x : ℝ,
        0 ≤ Real.arccos x - Real.sin (Real.arccos x) * Real.cos (Real.arccos x) := by
      intro x
      have h0 := Real.arccos_nonneg x
      have h1 : Real.sin (Real.arccos x) ≤ Real.arccos x := Real.sin_le h0
      have h2 : 0 ≤ Real.sin (Real.arccos x) :=
        Real.sin_nonneg_of_nonneg_of_le_pi h0 (Real.arccos_le_pi x)
      have h3 := Real.cos_le_one (Real.arccos x)
      nlinarith
    have hs1 := hseg rs (ems * ems + rs * rs - rm * rm) hrs hR1
    have hs2 := hseg rm (ems * ems - rs * rs + rm * rm) hrm hR2
    have heq : lensArea ems rs rm
        = rs * rs * (Real.arccos ((ems * ems + rs * rs - rm * rm) / (2 * ems) / rs)
            - Real.sin (Real.arccos ((ems * ems + rs * rs - rm * rm) / (2 * ems) / rs))
              * Real.cos (Real.arccos ((ems * ems + rs * rs - rm * rm) / (2 * ems) / rs)))
          + rm * rm * (Real.arccos ((ems * ems - rs * rs + rm * rm) / (2 * ems) / rm)
            - Real.sin (Real.arccos ((ems * ems - rs * rs + rm * rm) / (2 * ems) / rm))
              * Real.cos (Real.arccos ((ems * ems - rs * rs + rm * rm) / (2 * ems) / rm))) := by
      rw [← hs1, ← hs2, ← hsymm]
      delta lensArea chordRadicand
      ring
    refine ⟨he, hR, hratio rs _ hrs hR1, hratio rm _ hrm hR2, heq, ?_, ?_⟩
    · rw [heq]
      exact add_nonneg (mul_nonneg (mul_self_nonneg rs) (hangle _))
        (mul_nonneg (mul_self_nonneg rm) (hangle _))
    · delta lensArea
      have hne := he.ne'
      field_simp
      ring

/-! ## The claims -/

/-- Claim C3: in a total eclipse, `rs > 0`, `rm ≥ rs` and `0 ≤ ems ≤ rm - rs`, `sulArea`
returns the area `0` and the percentage `0`. -/
theorem sulArea_total_eclipse (ems rs rm : ℝ) (hrs : 0 < rs) (hrm : rs ≤ rm)
    (_h0 : 0 ≤ ems) (h : ems ≤ rm - rs) :
    (sulArea ems rs rm).1 = 0 ∧ (sulArea ems rs rm).2 = 0 := by
  have h1 : ems < rs + rm := by linarith
  have h2 : ems ≤ |rs - rm| := by
    rw [abs_sub_comm, abs_of_nonneg (by linarith)]; exact h
  have h3 : Real.pi * (rs * rs) - Real.pi * (rm * rm) ≤ 0 := by
    have : rs * rs ≤ rm * rm := by nlinarith
    have := mul_le_mul_of_nonneg_left this Real.pi_pos.le
    linarith
  rw [(sulArea_facts ems rs rm).1.2.1 h1 h2]
  delta sulFromAi
  dsimp only
  split_ifs with h4
  · simp
  · have : Real.pi * (rs * rs) - Real.pi * (rm * rm) = 0 := le_antisymm h3 (not_lt.mp h4)
    simp [this]

/-- Witness of claim C3 at `ems = 1/2`, `rs = 1`, `rm = 2`. -/
theorem sulArea_total_eclipse_witness :
    (0 : ℝ) < 1 ∧ (1 : ℝ) ≤ 2 ∧ (0 : ℝ) ≤ 1 / 2 ∧ (1 : ℝ) / 2 ≤ 2 - 1
      ∧ (sulArea (1 / 2) 1 2).1 = 0 ∧ (sulArea (1 / 2) 1 2).2 = 0 :=
  ⟨by norm_num, by norm_num, by norm_num, by norm_num,
    sulArea_total_eclipse (1 / 2) 1 2 (by norm_num) (by norm_num) (by norm_num) (by norm_num)⟩

/-- Claim C7: on a table of 60 rows, each with the columns 0 to 5,
`moonPeriodicTermSummation` returns the sums over the rows of
`e^|M| * Lb * sin (rad (D d + M m + Mpr m_prime + F f))` and of `e^|M| * R * cos` of the
same argument, with `e = 1 - jce (0.002516 + jce 0.0000074)`; the contents of the two
accumulators on entry do not occur in the result. -/
theorem moonPeriodicTermSummation_spec (d m m_prime f jce : ℝ) (terms : List (List ℝ))
    (sin_sum cos_sum : ℝ) (hlen : terms.length = 60)
    (hrow : ∀ row ∈ terms, TermCount ≤ row.length) :
    moonPeriodicTermSummation d m m_prime f jce terms sin_sum cos_sum
      = some (
          ∑ i in Finset.range 60,
            (1 - jce * (0.002516 + jce * 0.0000074)) ^ |tableCol terms i TermM|
              * tableCol terms i TermLb
              * Real.sin (deg2rad (tableCol terms i TermD * d + tableCol terms i TermM * m
                  + tableCol terms i TermMpr * m_prime + tableCol terms i TermF * f)),
          ∑ i in Finset.range 60,
            (1 - jce * (0.002516 + jce * 0.0000074)) ^ |tableCol terms i TermM|
              * tableCol terms i TermR
              * Real.cos (deg2rad (tableCol terms i TermD * d + tableCol terms i TermM * m
                  + tableCol terms i TermMpr * m_prime + tableCol terms i TermF * f))) := by
  rw [(summation_facts d m m_prime f jce sin_sum cos_sum).1 terms hlen.ge hrow]
  rfl

/-- Witness of claim C7 on the table `MlTerms`: two different contents of the
accumulators on entry give the same result. -/
theorem moonPeriodicTermSummation_spec_witness :
    MlTerms.length = 60 ∧ (∀ row ∈ MlTerms, TermCount ≤ row.length)
      ∧ moonPeriodicTermSummation 1 2 3 4 (1 / 10) MlTerms 5 7
        = moonPeriodicTermSummation 1 2 3 4 (1 / 10) MlTerms 0 0 := by
  have hl : MlTerms.length = 60 := tables_facts.1.1
  have hr : ∀ row ∈ MlTerms, TermCount ≤ row.length :=
    fun row hrow => (tables_facts.1.2.1 row hrow).ge
  exact ⟨hl, hr,
    (moonPeriodicTermSummation_spec 1 2 3 4 (1 / 10) MlTerms 5 7 hl hr).trans
      (moonPeriodicTermSummation_spec 1 2 3 4 (1 / 10) MlTerms 0 0 hl hr).symm⟩

/-- Claim C8: for `|jce| ≤ 1` and all fundamental arguments the summation over `MlTerms`
returns a cosine sum `r` whose distance `capDelta = 385000.56 + r / 1000` lies strictly
between 355000 and 415000, so `6378.14 / capDelta` lies strictly between 0 and 1 and the
equatorial horizontal parallax strictly between 0 and 90 degrees. -/
theorem moonEarthDistance_range (d m m_prime f jce sin_sum cos_sum : ℝ) (hjce : |jce| ≤ 1) :
    ∃ l r, moonPeriodicTermSummation d m m_prime f jce MlTerms sin_sum cos_sum = some (l, r)
      ∧ 355000 < moonEarthDistance r ∧ moonEarthDistance r < 415000
      ∧ 0 < 6378.14 / moonEarthDistance r ∧ 6378.14 / moonEarthDistance r < 1
      ∧ 0 < moonEquatorialHorizParallax (moonEarthDistance r)
      ∧ moonEquatorialHorizParallax (moonEarthDistance r) < 90 := by
  obtain ⟨⟨hl, hlrow, hlmem⟩, -, hcol⟩ := tables_facts
  have hlcol := hcol MlTerms
  obtain ⟨hj1, hj2⟩ := abs_le.mp hjce
  -- the eccentricity factor
  have he0 : 0 < 1 - jce * (0.002516 + jce * 0.0000074) := by
    nlinarith [sq_nonneg jce, sq_nonneg (jce - 1), sq_nonneg (jce + 1)]
  have he1 : 1 - jce * (0.002516 + jce * 0.0000074) ≤ 1.0026 := by
    nlinarith [sq_nonneg jce, sq_nonneg (jce - 1), sq_nonneg (jce + 1)]
  have hpow : ∀ e x : ℝ, 0 < e → e ≤ 1.0026 → (|x| = 0 ∨ |x| = 1 ∨ |x| = 2) →
      abs (e ^ |x|) ≤ 1.0053 := by
    intro e x hpos hle hx
    rcases hx with h | h | h <;> rw [h]
    · simp; norm_num
    · rw [Real.rpow_one, abs_of_pos hpos]; linarith
    · rw [Real.rpow_two, abs_of_nonneg (sq_nonneg e)]; nlinarith
  -- the table: the multiplier of the sun anomaly is 0, 1 or 2 in size, and the sizes of
  -- the distance coefficients add up to 29682638
  have hanom : ∀ row ∈ MlTerms,
      |row.getD 1 0| = 0 ∨ |row.getD 1 0| = 1 ∨ |row.getD 1 0| = 2 := by
    delta MlTerms
    simp
  have habs : (MlTerms.map fun row => |row.getD 5 0|).sum = 29682638 := by
    delta MlTerms
    simp
    norm_num
  have hsumget : ∀ (terms : List (List ℝ)) (G : List ℝ → ℝ),
      ∑ i in Finset.range terms.length, G (terms.getD i []) = (terms.map G).sum := by
    intro terms G
    induction terms with
    | nil => simp
    | cons row rest ih =>
      rw [List.length_cons, Finset.sum_range_succ', List.map_cons, List.sum_cons, ← ih]
      simp [add_comm]
  have hterm : ∀ i ∈ Finset.range 60,
      abs ((1 - jce * (0.002516 + jce * 0.0000074)) ^ |tableCol MlTerms i 1|
          * tableCol MlTerms i 5
          * Real.cos (deg2rad (tableCol MlTerms i 0 * d + tableCol MlTerms i 1 * m
              + tableCol MlTerms i 2 * m_prime + tableCol MlTerms i 3 * f)))
        ≤ 1.0053 * |(MlTerms.getD i []).getD 5 0| := by
    intro i hi
    have hmem := hlmem i (Finset.mem_range.mp hi)
    have hx : |tableCol MlTerms i 1| = 0 ∨ |tableCol MlTerms i 1| = 1
        ∨ |tableCol MlTerms i 1| = 2 := by
      rw [hlcol]; exact hanom _ hmem
    rw [abs_mul, abs_mul, ← hlcol i 5]
    have h1 := hpow _ (tableCol MlTerms i 1) he0 he1 hx
    have h2 := Real.abs_cos_le_one (deg2rad (tableCol MlTerms i 0 * d
      + tableCol MlTerms i 1 * m + tableCol MlTerms i 2 * m_prime + tableCol MlTerms i 3 * f))
    have h3 : 0 ≤ |tableCol MlTerms i 5| := abs_nonneg _
    calc abs ((1 - jce * (0.002516 + jce * 0.0000074)) ^ |tableCol MlTerms i 1|)
            * |tableCol MlTerms i 5| * |Real.cos _|
        ≤ abs ((1 - jce * (0.002516 + jce * 0.0000074)) ^ |tableCol MlTerms i 1|)
            * |tableCol MlTerms i 5| * 1 :=
          mul_le_mul_of_nonneg_left h2 (mul_nonneg (abs_nonneg _) h3)
      _ = abs ((1 - jce * (0.002516 + jce * 0.0000074)) ^ |tableCol MlTerms i 1|)
            * |tableCol MlTerms i 5| := mul_one _
      _ ≤ 1.0053 * |tableCol MlTerms i 5| := mul_le_mul_of_nonneg_right h1 h3
  have hbound : abs (∑ i in Finset.range 60,
      (1 - jce * (0.002516 + jce * 0.0000074)) ^ |tableCol MlTerms i 1|
        * tableCol MlTerms i 5
        * Real.cos (deg2rad (tableCol MlTerms i 0 * d + tableCol MlTerms i 1 * m
            + tableCol MlTerms i 2 * m_prime + tableCol MlTerms i 3 * f))) ≤ 29840000 := by
    refine le_trans (Finset.abs_sum_le_sum_abs _ _) (le_trans (Finset.sum_le_sum hterm) ?_)
    have hs := hsumget MlTerms (fun row => |row.getD 5 0|)
    rw [hl, habs] at hs
    rw [← Finset.mul_sum, hs]
    norm_num
  obtain ⟨l, r, hlr, hr⟩ : ∃ l r,
      moonPeriodicTermSummation d m m_prime f jce MlTerms sin_sum cos_sum = some (l, r)
        ∧ |r| ≤ 29840000 :=
    ⟨_, _, (summation_facts d m m_prime f jce sin_sum cos_sum).1 MlTerms hl.ge
      (fun row hrow => (hlrow row hrow).ge), hbound⟩
  obtain ⟨hr1, hr2⟩ := abs_le.mp hr
  have hlo : 355000 < moonEarthDistance r := by
    delta moonEarthDistance; linarith
  have hhi : moonEarthDistance r < 415000 := by
    delta moonEarthDistance; linarith
  have hpos : (0 : ℝ) < moonEarthDistance r := by linarith
  have hx0 : 0 < 6378.14 / moonEarthDistance r := div_pos (by norm_num) hpos
  have hx1 : 6378.14 / moonEarthDistance r < 1 := by
    rw [div_lt_one hpos]; linarith
  refine ⟨l, r, hlr, hlo, hhi, hx0, hx1, ?_, ?_⟩
  · delta moonEquatorialHorizParallax rad2deg
    exact mul_pos (div_pos (by norm_num) Real.pi_pos) (Real.arcsin_pos.mpr hx0)
  · delta moonEquatorialHorizParallax rad2deg
    have h3 : Real.arcsin (6378.14 / moonEarthDistance r) < Real.pi / 2 :=
      Real.arcsin_lt_pi_div_two.mpr hx1
    have hpi := Real.pi_pos
    rw [div_mul_eq_mul_div, div_lt_iff₀ hpi]
    nlinarith

/-- Witness of claim C8 at `jce = 0` with all fundamental arguments `0`. -/
theorem moonEarthDistance_range_witness :
    |(0 : ℝ)| ≤ 1
      ∧ ∃ l r, moonPeriodicTermSummation 0 0 0 0 0 MlTerms 0 0 = some (l, r)
        ∧ 355000 < moonEarthDistance r ∧ moonEarthDistance r < 415000
        ∧ 0 < 6378.14 / moonEarthDistance r ∧ 6378.14 / moonEarthDistance r < 1
        ∧ 0 < moonEquatorialHorizParallax (moonEarthDistance r)
        ∧ moonEquatorialHorizParallax (moonEarthDistance r) < 90 :=
  ⟨by norm_num, moonEarthDistance_range 0 0 0 0 0 0 0 (by norm_num)⟩

/-- Claim C10: in the containment case, `rs > 0`, `rm > 0` and `0 ≤ ems ≤ |rs - rm|`,
`sulArea` uses the intersection area `π rm²` whichever disk is the larger: the area is
`max 0 (π (rs² - rm²))`, and for `rs > rm` the percentage is `100 (1 - rm² / rs²)`. -/
theorem sulArea_containment (ems rs rm : ℝ) (hrs : 0 < rs) (hrm : 0 < rm)
    (_h0 : 0 ≤ ems) (h : ems ≤ |rs - rm|) :
    sulArea ems rs rm = sulFromAi rs (Real.pi * (rm * rm))
      ∧ (sulArea ems rs rm).1 = max 0 (Real.pi * (rs ^ 2 - rm ^ 2))
      ∧ (rm < rs → (sulArea ems rs rm).2 = 100 * (1 - rm ^ 2 / rs ^ 2)) := by
  have h1 : ems < rs + rm := by
    refine lt_of_le_of_lt h (abs_lt.mpr ⟨by linarith, by linarith⟩)
  have hpos : 0 < Real.pi * (rs * rs) := mul_pos Real.pi_pos (mul_pos hrs hrs)
  have hdiff : Real.pi * (rs * rs) - Real.pi * (rm * rm) = Real.pi * (rs ^ 2 - rm ^ 2) := by
    ring
  have hcase := (sulArea_facts ems rs rm).1.2.1 h1 h
  refine ⟨hcase, ?_, ?_⟩
  · rw [hcase]
    delta sulFromAi
    simp only [hdiff]
    split_ifs with h4
    · exact (max_eq_left h4.le).symm
    · exact (max_eq_right (not_lt.mp h4)).symm
  · intro hlt
    rw [hcase]
    have h5 : ¬ Real.pi * (rs * rs) - Real.pi * (rm * rm) < 0 := by
      have : rm * rm < rs * rs := by nlinarith
      have := mul_lt_mul_of_pos_left this Real.pi_pos
      linarith
    delta sulFromAi
    simp only [if_neg h5]
    have hpi := Real.pi_pos.ne'
    field_simp
    ring

/-- Witness of claim C10 at `ems = 1/2`, `rs = 2`, `rm = 1`: the moon lies inside the
sun disk and three quarters of the disk stay unshaded. -/
theorem sulArea_containment_witness :
    (0 : ℝ) < 2 ∧ (0 : ℝ) < 1 ∧ (0 : ℝ) ≤ 1 / 2 ∧ (1 : ℝ) / 2 ≤ |(2 : ℝ) - 1|
      ∧ (sulArea (1 / 2) 2 1).2 = 75 := by
  have h := sulArea_containment (1 / 2) 2 1 (by norm_num) (by norm_num) (by norm_num)
    (by norm_num)
  exact ⟨by norm_num, by norm_num, by norm_num, by norm_num,
    (h.2.2 (by norm_num)).trans (by norm_num)⟩

/-- Claim C11: `atmosphericRefractionCorrection` returns `0` whenever
`e0 < -(spa.SunRadius + atmosRefract)` and otherwise, equality included, the value
`(pressure / 1010) (283 / (273 + temperature)) 1.02 / (60 tan (rad (e0 + 10.3 / (e0 + 5.11))))`;
the corrected elevation is `e0 + delE` and the zenith `90 - e`, also in the record that
`mpa.Calculate` returns. -/
theorem atmosphericRefractionCorrection_spec
    (SunRadius pressure temperature atmosRefract e0 : ℝ) (s : sampa) :
    (e0 < -(SunRadius + atmosRefract) →
        atmosphericRefractionCorrection SunRadius pressure temperature atmosRefract e0 = 0)
      ∧ (-(SunRadius + atmosRefract) ≤ e0 →
        atmosphericRefractionCorrection SunRadius pressure temperature atmosRefract e0
          = (pressure / 1010) * (283 / (273 + temperature)) * 1.02
              / (60 * Real.tan (deg2rad (e0 + 10.3 / (e0 + 5.11)))))
      ∧ (∀ delE, topocentricElevationAngleCorrected e0 delE = e0 + delE)
      ∧ (∀ e, topocentricZenithAngle e = 90 - e)
      ∧ ∃ res, mpa.Calculate SunRadius s = some res
          ∧ res.delE = atmosphericRefractionCorrection SunRadius s.spaData.pressure
              s.spaData.temperature s.spaData.atmosRefract res.e0
          ∧ res.e = res.e0 + res.delE ∧ res.zenith = 90 - res.e := by
  refine ⟨?_, ?_, fun _ => rfl, fun _ => rfl, ?_⟩
  · intro h
    have hn : ¬ e0 ≥ -1 * (SunRadius + atmosRefract) := by
      rw [neg_one_mul]; exact not_le.mpr h
    delta atmosphericRefractionCorrection
    simp only [if_neg hn]
  · intro h
    have hp : e0 ≥ -1 * (SunRadius + atmosRefract) := by
      rw [neg_one_mul]; exact h
    delta atmosphericRefractionCorrection
    simp only [if_pos hp]
  · obtain ⟨-, ⟨lr, hlr⟩, ⟨bt, hbt⟩⟩ := summation_facts (moonMeanElongation s.spaData.jce)
      (sunMeanAnomaly s.spaData.jce) (moonMeanAnomaly s.spaData.jce)
      (moonLatitudeArgument s.spaData.jce) s.spaData.jce 0 0
    delta mpa.Calculate
    simp only [hlr, hbt, Option.some_bind]
    exact ⟨_, rfl, rfl, rfl, rfl⟩

/-- Counterexample to claim C12: a receiver built by `NewSampa` with collaborators that
succeed stores the irradiance `1`; after `SetFunction SampaNoIrr` a second `Calculate`
succeeds and the field `dni` is still `1`, not `0`. -/
theorem calculate_noIrr_zero_counterexample :
    ∃ o1 o2, NewSampa exampleCollaborators exampleSpa (exampleBird 7) = some o1
      ∧ o1.err = none
      ∧ sampa.Calculate exampleCollaborators (o1.state.SetFunction SampaNoIrr) = some o2
      ∧ o2.state.function = SampaNoIrr ∧ o2.err = none
      ∧ o2.state.dni = 1 ∧ o2.state.dni ≠ 0 := by
  obtain ⟨m1, _, h1⟩ := (calculate_cases exampleCollaborators
    { spaData := exampleSpa, mpaData := none, function := SampaAll, birdData := exampleBird 7,
      ems := 0, rs := 0, rm := 0, aSul := 0, aSulPct := 0,
      dni := 0, dniSul := 0, ghi := 0, ghiSul := 0, dhi := 0, dhiSul := 0 }).2 rfl
  rw [if_pos rfl] at h1
  obtain ⟨m2, _, h2⟩ := (calculate_cases exampleCollaborators
    ((sampa.estimateIrr exampleCollaborators ((sampa.afterSpa exampleCollaborators
      { spaData := exampleSpa, mpaData := none, function := SampaAll,
        birdData := exampleBird 7, ems := 0, rs := 0, rm := 0, aSul := 0, aSulPct := 0,
        dni := 0, dniSul := 0, ghi := 0, ghiSul := 0, dhi := 0,
        dhiSul := 0 }).withGeometry m1)).state.SetFunction SampaNoIrr)).2 rfl
  rw [if_neg (by show ¬ (0 : ℕ) = 1; decide)] at h2
  have hdni : (1 : ℝ) ≠ 0 := one_ne_zero
  exact ⟨_, _, h1, rfl, h2, rfl, rfl, rfl, hdni⟩

/-- Claim C12, amended: when `Calculate` succeeds with the function code `SampaNoIrr`,
the six irradiance fields have the values they had before the call; they are zero
when they were zero before the call. -/
theorem calculate_noIrr_keeps_irradiance (c : Collaborators) (s : sampa)
    (hf : s.function = SampaNoIrr) (hspa : (c.spaCalculate (spaBeforeRun c s)).2 = none) :
    ∃ o, sampa.Calculate c s = some o ∧ o.err = none
      ∧ o.state.dni = s.dni ∧ o.state.dniSul = s.dniSul
      ∧ o.state.ghi = s.ghi ∧ o.state.ghiSul = s.ghiSul
      ∧ o.state.dhi = s.dhi ∧ o.state.dhiSul = s.dhiSul := by
  obtain ⟨m, _, hc⟩ := (calculate_cases c s).2 hspa
  have hne : ¬ s.function = SampaAll := by
    rw [hf]; show ¬ (0 : ℕ) = 1; decide
  rw [if_neg hne] at hc
  exact ⟨_, hc, rfl, rfl, rfl, rfl, rfl, rfl, rfl⟩

/-- Witness of the amended claim C12: the irradiance fields of a receiver in the mode
`SampaNoIrr` stay at `7`. -/
theorem calculate_noIrr_keeps_irradiance_witness :
    (exampleSampa SampaNoIrr).function = SampaNoIrr
      ∧ (exampleCollaborators.spaCalculate
          (spaBeforeRun exampleCollaborators (exampleSampa SampaNoIrr))).2 = none
      ∧ ∃ o, sampa.Calculate exampleCollaborators (exampleSampa SampaNoIrr) = some o
        ∧ o.err = none ∧ o.state.dni = 7 ∧ o.state.dniSul = 7 ∧ o.state.ghi = 7
        ∧ o.state.ghiSul = 7 ∧ o.state.dhi = 7 ∧ o.state.dhiSul = 7 :=
  ⟨rfl, rfl, calculate_noIrr_keeps_irradiance exampleCollaborators (exampleSampa SampaNoIrr)
    rfl rfl⟩

/-- Claim C13: when the sun position collaborator returns an error, `Calculate` returns
that error after the two setter calls and the one `Calculate` call of the collaborator,
and the moon position record, the five geometry fields, the clear sky model and the six
irradiance fields are those from before the call. -/
theorem calculate_spa_error (c : Collaborators) (s : sampa) (e : GoError)
    (h : (c.spaCalculate (spaBeforeRun c s)).2 = some e) :
    ∃ o, sampa.Calculate c s = some o ∧ o.err = some e
      ∧ o.calls = [Call.SetSPAFunction 0, Call.SetSPAFunction c.SpaZa, Call.spaCalculate]
      ∧ o.state.mpaData = s.mpaData
      ∧ o.state.ems = s.ems ∧ o.state.rs = s.rs ∧ o.state.rm = s.rm
      ∧ o.state.aSul = s.aSul ∧ o.state.aSulPct = s.aSulPct
      ∧ o.state.dni = s.dni ∧ o.state.dniSul = s.dniSul
      ∧ o.state.ghi = s.ghi ∧ o.state.ghiSul = s.ghiSul
      ∧ o.state.dhi = s.dhi ∧ o.state.dhiSul = s.dhiSul
      ∧ o.state.birdData = s.birdData ∧ o.state.function = s.function :=
  ⟨_, (calculate_cases c s).1 e h, rfl, rfl, rfl, rfl, rfl, rfl, rfl, rfl, rfl, rfl, rfl,
    rfl, rfl, rfl, rfl, rfl⟩

/-- Witness of claim C13: a failing sun position collaborator on a receiver whose
output fields are all `7`. -/
theorem calculate_spa_error_witness :
    (exampleSpaFailing.spaCalculate (spaBeforeRun exampleSpaFailing (exampleSampa SampaAll))).2
        = some "spa"
      ∧ ∃ o, sampa.Calculate exampleSpaFailing (exampleSampa SampaAll) = some o
        ∧ o.err = some "spa" ∧ o.state.mpaData = none ∧ o.state.ems = 7
        ∧ o.state.aSulPct = 7 ∧ o.state.dni = 7 ∧ o.state.dhiSul = 7 := by
  obtain ⟨o, ho, h1, _, h3, h4, _, _, _, h8, h9, _, _, _, _, h14, _⟩ :=
    calculate_spa_error exampleSpaFailing (exampleSampa SampaAll) "spa" rfl
  exact ⟨rfl, o, ho, h1, h3, h4, h8, h9, h14⟩

/-- Claim C15: in the mode `SampaAll`, when the sun position collaborator succeeds and
the clear sky model fails, `Calculate` returns the error of the model, and the stored
clear sky model and the six irradiance fields are those from before the call. -/
theorem calculate_bird_error (c : Collaborators) (s : sampa)
    (hf : s.function = SampaAll) (hspa : (c.spaCalculate (spaBeforeRun c s)).2 = none) :
    ∃ o, sampa.Calculate c s = some o
      ∧ ∀ e, c.NewBird o.state.spaData.zenith o.state.spaData.r o.state.spaData.pressure
            s.birdData.ozone s.birdData.water s.birdData.taua s.birdData.ba s.birdData.albedo
            (o.state.aSulPct / 100) = Except.error e →
          o.err = some e ∧ o.state.birdData = s.birdData
            ∧ o.state.dni = s.dni ∧ o.state.dniSul = s.dniSul
            ∧ o.state.ghi = s.ghi ∧ o.state.ghiSul = s.ghiSul
            ∧ o.state.dhi = s.dhi ∧ o.state.dhiSul = s.dhiSul := by
  obtain ⟨m, _, hc⟩ := (calculate_cases c s).2 hspa
  rw [if_pos hf] at hc
  refine ⟨_, hc, ?_⟩
  delta sampa.estimateIrr
  dsimp only
  cases hb : c.NewBird ((sampa.afterSpa c s).withGeometry m).spaData.zenith
      ((sampa.afterSpa c s).withGeometry m).spaData.r
      ((sampa.afterSpa c s).withGeometry m).spaData.pressure
      ((sampa.afterSpa c s).withGeometry m).birdData.ozone
      ((sampa.afterSpa c s).withGeometry m).birdData.water
      ((sampa.afterSpa c s).withGeometry m).birdData.taua
      ((sampa.afterSpa c s).withGeometry m).birdData.ba
      ((sampa.afterSpa c s).withGeometry m).birdData.albedo
      (((sampa.afterSpa c s).withGeometry m).aSulPct / 100) with
  | error e0 =>
    intro e he
    have he2 : c.NewBird ((sampa.afterSpa c s).withGeometry m).spaData.zenith
      ((sampa.afterSpa c s).withGeometry m).spaData.r
      ((sampa.afterSpa c s).withGeometry m).spaData.pressure
      ((sampa.afterSpa c s).withGeometry m).birdData.ozone
      ((sampa.afterSpa c s).withGeometry m).birdData.water
      ((sampa.afterSpa c s).withGeometry m).birdData.taua
      ((sampa.afterSpa c s).withGeometry m).birdData.ba
      ((sampa.afterSpa c s).withGeometry m).birdData.albedo
      (((sampa.afterSpa c s).withGeometry m).aSulPct / 100) = Except.error e := he
    rw [hb] at he2
    cases he2
    exact ⟨rfl, rfl, rfl, rfl, rfl, rfl, rfl, rfl⟩
  | ok b0 =>
    intro e he
    have he2 : c.NewBird ((sampa.afterSpa c s).withGeometry m).spaData.zenith
      ((sampa.afterSpa c s).withGeometry m).spaData.r
      ((sampa.afterSpa c s).withGeometry m).spaData.pressure
      ((sampa.afterSpa c s).withGeometry m).birdData.ozone
      ((sampa.afterSpa c s).withGeometry m).birdData.water
      ((sampa.afterSpa c s).withGeometry m).birdData.taua
      ((sampa.afterSpa c s).withGeometry m).birdData.ba
      ((sampa.afterSpa c s).withGeometry m).birdData.albedo
      (((sampa.afterSpa c s).withGeometry m).aSulPct / 100) = Except.error e := he
    rw [hb] at he2
    cases he2

/-- Witness of claim C15: with a failing clear sky model `Calculate` returns its error
and the irradiance fields stay at `7`. -/
theorem calculate_bird_error_witness :
    (exampleSampa SampaAll).function = SampaAll
      ∧ (exampleBirdFailing.spaCalculate
          (spaBeforeRun exampleBirdFailing (exampleSampa SampaAll))).2 = none
      ∧ ∃ o, sampa.Calculate exampleBirdFailing (exampleSampa SampaAll) = some o
        ∧ o.err = some "bird" ∧ o.state.birdData = exampleBird 7 ∧ o.state.dni = 7
        ∧ o.state.dniSul = 7 ∧ o.state.ghi = 7 ∧ o.state.ghiSul = 7 ∧ o.state.dhi = 7
        ∧ o.state.dhiSul = 7 := by
  obtain ⟨o, ho, h⟩ :=
    calculate_bird_error exampleBirdFailing (exampleSampa SampaAll) rfl rfl
  exact ⟨rfl, rfl, o, ho, h "bird" rfl⟩

/-- Claim C16: whatever the function code of the sun position collaborator and the mode
of the receiver, every run of `Calculate` starts with the calls `SetSPAFunction 0`,
`SetSPAFunction spa.SpaZa` and the `Calculate` of the collaborator, which therefore runs
with the function code `spa.SpaZa`; no later call is a call of that collaborator. -/
theorem calculate_forces_spa_function (c : Collaborators) (s : sampa) :
    ∃ o rest, sampa.Calculate c s = some o
      ∧ o.calls = [Call.SetSPAFunction 0, Call.SetSPAFunction c.SpaZa, Call.spaCalculate] ++ rest
      ∧ (∀ call ∈ rest, ∃ zenith r pressure ozone water taua ba albedo dni_mod,
          call = Call.NewBird zenith r pressure ozone water taua ba albedo dni_mod)
      ∧ o.state.spaData = (c.spaCalculate (spaBeforeRun c s)).1
      ∧ (spaBeforeRun c s).function = c.SpaZa
      ∧ spaBeforeRun c s = { s.spaData with function := c.SpaZa } := by
  -- the one call `estimateIrr` makes is a call of the clear sky model, and it leaves
  -- the sun position record as it is
  have hirr : ∀ t : sampa,
      (sampa.estimateIrr c t).calls
          = [Call.NewBird t.spaData.zenith t.spaData.r t.spaData.pressure t.birdData.ozone
              t.birdData.water t.birdData.taua t.birdData.ba t.birdData.albedo
              (t.aSulPct / 100)]
        ∧ (sampa.estimateIrr c t).state.spaData = t.spaData := by
    intro t
    delta sampa.estimateIrr
    dsimp only
    cases c.NewBird t.spaData.zenith t.spaData.r t.spaData.pressure t.birdData.ozone
        t.birdData.water t.birdData.taua t.birdData.ba t.birdData.albedo
        (t.aSulPct / 100) with
    | error e => exact ⟨rfl, rfl⟩
    | ok b => exact ⟨rfl, rfl⟩
  cases hspa : (c.spaCalculate (spaBeforeRun c s)).2 with
  | some e =>
    exact ⟨_, [], (calculate_cases c s).1 e hspa, rfl, by simp, rfl, rfl, rfl⟩
  | none =>
    obtain ⟨m, _, hc⟩ := (calculate_cases c s).2 hspa
    by_cases hf : s.function = SampaAll
    · rw [if_pos hf] at hc
      refine ⟨_, _, hc, rfl, ?_, ?_, rfl, rfl⟩
      · intro call hcall
        rw [(hirr _).1] at hcall
        exact ⟨_, _, _, _, _, _, _, _, _, List.mem_singleton.mp hcall⟩
      · exact (hirr _).2
    · rw [if_neg hf] at hc
      exact ⟨_, [], hc, rfl, by simp, rfl, rfl, rfl⟩

/-- Claim C17: `CalculateMpa` returns a record, and the record depends only on the ten
values `jce`, `delPsi`, `epsilon`, `nu`, `longitude`, `latitude`, `elevation`, `pressure`,
`temperature` and `atmosRefract` that the sun position collaborator reports: two
receivers that agree on them get the same record, whatever their other fields are. -/
theorem calculateMpa_depends_on_spa_outputs (SunRadius : ℝ) (s1 s2 : sampa)
    (hjce : s1.spaData.jce = s2.spaData.jce)
    (hdelPsi : s1.spaData.delPsi = s2.spaData.delPsi)
    (hepsilon : s1.spaData.epsilon = s2.spaData.epsilon)
    (hnu : s1.spaData.nu = s2.spaData.nu)
    (hlongitude : s1.spaData.longitude = s2.spaData.longitude)
    (hlatitude : s1.spaData.latitude = s2.spaData.latitude)
    (helevation : s1.spaData.elevation = s2.spaData.elevation)
    (hpressure : s1.spaData.pressure = s2.spaData.pressure)
    (htemperature : s1.spaData.temperature = s2.spaData.temperature)
    (hatmosRefract : s1.spaData.atmosRefract = s2.spaData.atmosRefract) :
    sampa.CalculateMpa SunRadius s1 = sampa.CalculateMpa SunRadius s2
      ∧ ∃ m, sampa.CalculateMpa SunRadius s1 = some m := by
  have hsome : ∃ m, sampa.CalculateMpa SunRadius s1 = some m := by
    obtain ⟨-, ⟨lr, hlr⟩, ⟨bt, hbt⟩⟩ := summation_facts (moonMeanElongation s1.spaData.jce)
      (sunMeanAnomaly s1.spaData.jce) (moonMeanAnomaly s1.spaData.jce)
      (moonLatitudeArgument s1.spaData.jce) s1.spaData.jce 0 0
    delta sampa.CalculateMpa mpa.Calculate
    simp only [hlr, hbt, Option.some_bind]
    exact ⟨_, rfl⟩
  refine ⟨?_, hsome⟩
  delta sampa.CalculateMpa mpa.Calculate
  simp only [hjce, hdelPsi, hepsilon, hnu, hlongitude, hlatitude, helevation, hpressure,
    htemperature, hatmosRefract]

/-- Witness of claim C17: two receivers with the same ten sun position values and
different modes, clear sky models and output fields. -/
theorem calculateMpa_depends_on_spa_outputs_witness :
    sampa.CalculateMpa 0.26667 (exampleSampa SampaAll)
      = sampa.CalculateMpa 0.26667 exampleSampaOther :=
  (calculateMpa_depends_on_spa_outputs 0.26667 (exampleSampa SampaAll) exampleSampaOther
    rfl rfl rfl rfl rfl rfl rfl rfl rfl rfl).1

/-- Claim C18: on the reference values `ems = 0.374760`, `rs = 0.262360` and
`rm = 0.283341`, `sulArea` takes the partial overlap branch and returns a percentage
within `0.001` of the reference value `78.363514`. -/
theorem sulArea_reference :
    |(0.262360 : ℝ) - 0.283341| < 0.374760 ∧ (0.374760 : ℝ) < 0.262360 + 0.283341
      ∧ sulArea 0.374760 0.262360 0.283341
          = sulFromAi 0.262360 (lensArea 0.374760 0.262360 0.283341)
      ∧ |(sulArea 0.374760 0.262360 0.283341).2 - 78.363514| < 0.001 := by
  have h1 : |(0.262360 : ℝ) - 0.283341| < 0.374760 := by
    rw [abs_lt]; constructor <;> norm_num
  have h2 : (0.374760 : ℝ) < 0.262360 + 0.283341 := by norm_num
  have hcase := (sulArea_facts 0.374760 0.262360 0.283341).1.2.2 h2 h1
  refine ⟨h1, h2, hcase, ?_⟩
  rw [hcase]
  -- the cosine and its Taylor polynomial of degree 8
  have hseries : ∀ y : ℝ,
      (∑ m in Finset.range 10, ((y : ℂ) * Complex.I) ^ m / (m.factorial : ℂ)).re
        = 1 - y ^ 2 / 2 + y ^ 4 / 24 - y ^ 6 / 720 + y ^ 8 / 40320 := by
    intro y
    simp only [Finset.sum_range_succ, Finset.range_zero, Finset.sum_empty, mul_pow]
    have i2 : Complex.I ^ 2 = -1 := Complex.I_sq
    have i3 : Complex.I ^ 3 = -Complex.I := by rw [pow_succ, i2]; ring
    have i4 : Complex.I ^ 4 = 1 := by rw [pow_succ, i3]; ring_nf; rw [i2]; ring
    have i5 : Complex.I ^ 5 = Complex.I := by rw [pow_succ, i4]; ring
    have i6 : Complex.I ^ 6 = -1 := by rw [pow_succ, i5]; ring_nf; rw [i2]
    have i7 : Complex.I ^ 7 = -Complex.I := by rw [pow_succ, i6]; ring
    have i8 : Complex.I ^ 8 = 1 := by rw [pow_succ, i7]; ring_nf; rw [i2]; ring
    have i9 : Complex.I ^ 9 = Complex.I := by rw [pow_succ, i8]; ring
    rw [i2, i3, i4, i5, i6, i7, i8, i9]
    simp only [Nat.factorial, pow_zero, pow_one]
    norm_num
    have hp : ∀ n : ℕ, (y : ℂ) ^ n = ((y ^ n : ℝ) : ℂ) :=
      fun n => (Complex.ofReal_pow y n).symm
    simp only [hp, Complex.add_re, Complex.sub_re, Complex.neg_re,
      Complex.div_re, Complex.mul_re, Complex.ofReal_re, Complex.ofReal_im, Complex.I_re,
      Complex.I_im, Complex.one_re]
    norm_num [Complex.normSq]
    ring
  have htaylor : ∀ y : ℝ, |y| ≤ 1 →
      |Real.cos y - (1 - y ^ 2 / 2 + y ^ 4 / 24 - y ^ 6 / 720 + y ^ 8 / 40320)|
        ≤ |y| ^ 10 * (11 / 36288000) := by
    intro y hy
    have habs : Complex.abs ((y : ℂ) * Complex.I) = |y| := by simp
    have hb := Complex.exp_bound (x := (y : ℂ) * Complex.I) (by rw [habs]; exact hy)
      (n := 10) (by norm_num)
    rw [habs] at hb
    have hre := Complex.abs_re_le_abs
      (Complex.exp ((y : ℂ) * Complex.I)
        - ∑ m in Finset.range 10, ((y : ℂ) * Complex.I) ^ m / (m.factorial : ℂ))
    rw [Complex.sub_re, Complex.exp_ofReal_mul_I_re, hseries] at hre
    refine le_trans hre (le_trans hb (le_of_eq ?_))
    norm_num [Nat.factorial]
  have hanti : ∀ x y : ℝ, x ≤ y → Real.arccos y ≤ Real.arccos x := by
    intro x y h
    rw [Real.arccos_eq_pi_div_two_sub_arcsin, Real.arccos_eq_pi_div_two_sub_arcsin]
    linarith [Real.monotone_arcsin h]
  have hup : ∀ x hi : ℝ, 0 ≤ hi → hi ≤ 1 →
      1 - hi ^ 2 / 2 + hi ^ 4 / 24 - hi ^ 6 / 720 + hi ^ 8 / 40320
        + hi ^ 10 * (11 / 36288000) ≤ x → Real.arccos x ≤ hi := by
    intro x hi h0 h1 h
    have hb := (abs_le.mp (htaylor hi (by rw [abs_of_nonneg h0]; exact h1))).2
    rw [abs_of_nonneg h0] at hb
    have hcos : Real.cos hi ≤ x := by linarith
    calc Real.arccos x ≤ Real.arccos (Real.cos hi) := hanti _ _ hcos
      _ = hi := Real.arccos_cos h0 (by linarith [Real.pi_gt_three])
  have hdown : ∀ x lo : ℝ, 0 ≤ lo → lo ≤ 1 →
      x ≤ 1 - lo ^ 2 / 2 + lo ^ 4 / 24 - lo ^ 6 / 720 + lo ^ 8 / 40320
        - lo ^ 10 * (11 / 36288000) → lo ≤ Real.arccos x := by
    intro x lo h0 h1 h
    have hb := (abs_le.mp (htaylor lo (by rw [abs_of_nonneg h0]; exact h1))).1
    rw [abs_of_nonneg h0] at hb
    have hcos : x ≤ Real.cos lo := by linarith
    calc lo = Real.arccos (Real.cos lo) :=
          (Real.arccos_cos h0 (by linarith [Real.pi_gt_three])).symm
      _ ≤ Real.arccos x := hanti _ _ hcos
  -- enclosures of the two angles, of the chord term and of the lens area
  have hs1 : 0.855307 ≤ Real.arccos
      ((0.374760 * 0.374760 + 0.262360 * 0.262360 - 0.283341 * 0.283341)
        / (2 * 0.374760) / 0.262360) :=
    hdown _ _ (by norm_num) (by norm_num) (by norm_num)
  have hs2 : Real.arccos
      ((0.374760 * 0.374760 + 0.262360 * 0.262360 - 0.283341 * 0.283341)
        / (2 * 0.374760) / 0.262360) ≤ 0.855310 :=
    hup _ _ (by norm_num) (by norm_num) (by norm_num)
  have hm1 : 0.773834 ≤ Real.arccos
      ((0.374760 * 0.374760 - 0.262360 * 0.262360 + 0.283341 * 0.283341)
        / (2 * 0.374760) / 0.283341) :=
    hdown _ _ (by norm_num) (by norm_num) (by norm_num)
  have hm2 : Real.arccos
      ((0.374760 * 0.374760 - 0.262360 * 0.262360 + 0.283341 * 0.283341)
        / (2 * 0.374760) / 0.283341) ≤ 0.773837 :=
    hup _ _ (by norm_num) (by norm_num) (by norm_num)
  have hchord : 0.148421 ≤ Real.sqrt (chordRadicand 0.374760 0.262360 0.283341)
      ∧ Real.sqrt (chordRadicand 0.374760 0.262360 0.283341) ≤ 0.148422 := by
    delta chordRadicand
    constructor
    · apply Real.le_sqrt_of_sq_le
      norm_num
    · rw [Real.sqrt_le_left (by norm_num)]
      norm_num
  obtain ⟨hc1, hc2⟩ := hchord
  have hmerged := ((sulArea_facts 0.374760 0.262360 0.283341).2 (by norm_num) (by norm_num)
    h2 h1).2.2.2.2.2.2
  have hlens : 0.046787 ≤ lensArea 0.374760 0.262360 0.283341
      ∧ lensArea 0.374760 0.262360 0.283341 ≤ 0.046789 := by
    rw [hmerged]
    constructor <;> nlinarith
  obtain ⟨h3, h4⟩ := hlens
  have h5 := Real.pi_gt_d6
  have h6 := Real.pi_lt_d6
  have hpos : 0 < Real.pi * (0.262360 * 0.262360) := by positivity
  have hn : ¬ Real.pi * (0.262360 * 0.262360) - lensArea 0.374760 0.262360 0.283341 < 0 := by
    rw [not_lt]; nlinarith
  delta sulFromAi
  simp only [if_neg hn]
  rw [abs_lt]
  constructor
  · rw [lt_sub_iff_add_lt, lt_div_iff₀ hpos]
    nlinarith
  · rw [sub_lt_iff_lt_add, div_lt_iff₀ hpos]
    nlinarith

/-- Claim C19: `sunDiskRadius r` is `959.63 / (3600 r)`; at the reference distance
`r = 1.016024` it is within `0.000001` of `0.262360`; for `r > 0` it is positive. -/
theorem sunDiskRadius_spec (r : ℝ) :
    sunDiskRadius r = 959.63 / (3600 * r)
      ∧ |sunDiskRadius 1.016024 - 0.262360| < 0.000001
      ∧ (0 < r → 0 < sunDiskRadius r) := by
  refine ⟨rfl, ?_, fun h => ?_⟩
  · delta sunDiskRadius
    rw [abs_lt]
    constructor <;> norm_num
  · delta sunDiskRadius
    positivity

/-- Claim C22: the tables `MlTerms` and `MbTerms` have exactly `COUNT = 60` rows of
exactly `TermCount = 6` entries, so each access `terms[i][j]` of the loop of
`moonPeriodicTermSummation` is in range, the summation returns, and the loop indices
`0 .. COUNT - 1` are the row indices of the table, each once. -/
theorem term_tables_shape :
    COUNT = 60 ∧ TermCount = 6
      ∧ MlTerms.length = COUNT ∧ MbTerms.length = COUNT
      ∧ (∀ row ∈ MlTerms, row.length = TermCount)
      ∧ (∀ row ∈ MbTerms, row.length = TermCount)
      ∧ (∀ i j, i < COUNT → j < TermCount →
          (termAt MlTerms i j).isSome = true ∧ (termAt MbTerms i j).isSome = true)
      ∧ TermD < TermCount ∧ TermM < TermCount ∧ TermMpr < TermCount ∧ TermF < TermCount
      ∧ TermLb < TermCount ∧ TermR < TermCount
      ∧ (List.range COUNT).Nodup
      ∧ (∀ i, i ∈ List.range COUNT ↔ i < MlTerms.length)
      ∧ (∀ i, i ∈ List.range COUNT ↔ i < MbTerms.length)
      ∧ (∀ d m m_prime f jce sin_sum cos_sum : ℝ,
          (moonPeriodicTermSummation d m m_prime f jce MlTerms sin_sum cos_sum).isSome = true
            ∧ (moonPeriodicTermSummation d m m_prime f jce MbTerms sin_sum cos_sum).isSome
              = true) := by
  obtain ⟨⟨hl, hlrow, -⟩, ⟨hb, hbrow, -⟩, -⟩ := tables_facts
  have hat : ∀ terms : List (List ℝ), terms.length = 60 → (∀ row ∈ terms, row.length = 6) →
      ∀ i j, i < 60 → j < 6 → (termAt terms i j).isSome = true := by
    intro terms hlen hrow i j hi hj
    have hi2 : i < terms.length := by rw [hlen]; exact hi
    have hj2 : j < (terms[i]).length := by rw [hrow _ (List.getElem_mem hi2)]; exact hj
    delta termAt
    simp only [List.getElem?_eq_getElem hi2, Option.some_bind, List.getElem?_eq_getElem hj2,
      Option.isSome_some]
  refine ⟨rfl, rfl, hl, hb, hlrow, hbrow, ?_, by decide, by decide, by decide, by decide,
    by decide, by decide, List.nodup_range _, ?_, ?_, ?_⟩
  · intro i j hi hj
    exact ⟨hat MlTerms hl hlrow i j hi hj, hat MbTerms hb hbrow i j hi hj⟩
  · intro i; rw [hl, List.mem_range]; rfl
  · intro i; rw [hb, List.mem_range]; rfl
  · intro d m m_prime f jce sin_sum cos_sum
    obtain ⟨-, ⟨a, ha⟩, ⟨b, hb2⟩⟩ := summation_facts d m m_prime f jce sin_sum cos_sum
    rw [ha, hb2]
    exact ⟨rfl, rfl⟩

/-- Claim C23: every row of `MbTerms` has the sixth coefficient `0`, so for all
arguments the summation over `MbTerms` returns the cosine sum `0`; the sine sum is the
field `b` of the record of `mpa.Calculate`, which drops the cosine sum. -/
theorem MbTerms_cosine_sum_zero (d m m_prime f jce sin_sum cos_sum : ℝ) (SunRadius : ℝ)
    (s : sampa) :
    (∀ row ∈ MbTerms, row[TermR]? = some 0)
      ∧ (∃ b, moonPeriodicTermSummation d m m_prime f jce MbTerms sin_sum cos_sum = some (b, 0))
      ∧ ∃ res, mpa.Calculate SunRadius s = some res
          ∧ moonPeriodicTermSummation res.d res.m res.mPrime res.f s.spaData.jce MbTerms 0 0
            = some (res.b, 0) := by
  refine ⟨?_, (summation_facts d m m_prime f jce sin_sum cos_sum).2.2, ?_⟩
  · delta MbTerms TermR
    simp
  · obtain ⟨-, ⟨lr, hlr⟩, ⟨bt, hbt⟩⟩ := summation_facts (moonMeanElongation s.spaData.jce)
      (sunMeanAnomaly s.spaData.jce) (moonMeanAnomaly s.spaData.jce)
      (moonLatitudeArgument s.spaData.jce) s.spaData.jce 0 0
    delta mpa.Calculate
    simp only [hlr, hbt, Option.some_bind]
    exact ⟨_, rfl, hbt⟩

/-- Counterexample to claim C26: with `pressure = 1010`, `temperature = 10`,
`spa.SunRadius = 0.26667`, `atmosRefract = 5` and `e0 = -5.01` all conditions of the claim
hold, the angle passed to the tangent is `97.99`, above `90`, and the returned
correction is negative. -/
theorem refraction_positive_counterexample :
    (0 : ℝ) < 1010 ∧ (-273 : ℝ) < 10 ∧ (-5.11 : ℝ) < -5.01 ∧ (-5.01 : ℝ) ≤ 89.8
      ∧ -((0.26667 : ℝ) + 5) ≤ -5.01
      ∧ (-5.01 : ℝ) + 10.3 / (-5.01 + 5.11) = 97.99
      ∧ (90 : ℝ) < -5.01 + 10.3 / (-5.01 + 5.11)
      ∧ atmosphericRefractionCorrection 0.26667 1010 10 5 (-5.01) < 0 := by
  have hangle : (-5.01 : ℝ) + 10.3 / (-5.01 + 5.11) = 97.99 := by norm_num
  refine ⟨by norm_num, by norm_num, by norm_num, by norm_num, by norm_num, hangle,
    by rw [hangle]; norm_num, ?_⟩
  have hg : (-5.01 : ℝ) ≥ -1 * (0.26667 + 5) := by norm_num
  have htan : Real.tan (deg2rad 97.99) < 0 := by
    have hpi := Real.pi_pos
    have hlo : Real.pi / 2 < deg2rad 97.99 := by delta deg2rad; nlinarith
    have hhi : deg2rad 97.99 < Real.pi := by delta deg2rad; nlinarith
    rw [Real.tan_eq_sin_div_cos]
    exact div_neg_of_pos_of_neg (Real.sin_pos_of_pos_of_lt_pi (by linarith) hhi)
      (Real.cos_neg_of_pi_div_two_lt_of_lt hlo (by linarith))
  delta atmosphericRefractionCorrection
  simp only [if_pos hg, hangle]
  apply div_neg_of_pos_of_neg
  · norm_num
  · linarith

/-- Claim C26, amended: for `pressure > 0`, `temperature > -273` and `e0` with
`-5 ≤ e0 ≤ 89.8` and `e0 ≥ -(spa.SunRadius + atmosRefract)`, the angle
`e0 + 10.3 / (e0 + 5.11)` passed to the tangent lies strictly between 0 and 90, neither
divisor is zero, and the returned correction is positive, so the corrected elevation is
above the uncorrected one. -/
theorem refraction_positive (SunRadius pressure temperature atmosRefract e0 : ℝ)
    (hp : 0 < pressure) (ht : -273 < temperature) (h0 : -5 ≤ e0) (h1 : e0 ≤ 89.8)
    (hg : -(SunRadius + atmosRefract) ≤ e0) :
    0 < e0 + 10.3 / (e0 + 5.11) ∧ e0 + 10.3 / (e0 + 5.11) < 90
      ∧ e0 + 5.11 ≠ 0
      ∧ 60 * Real.tan (deg2rad (e0 + 10.3 / (e0 + 5.11))) ≠ 0
      ∧ 273 + temperature ≠ 0
      ∧ 0 < atmosphericRefractionCorrection SunRadius pressure temperature atmosRefract e0
      ∧ e0 < topocentricElevationAngleCorrected e0
          (atmosphericRefractionCorrection SunRadius pressure temperature atmosRefract e0) := by
  have hu : 0 < e0 + 5.11 := by linarith
  have ha0 : 0 < e0 + 10.3 / (e0 + 5.11) := by
    have h : e0 + 10.3 / (e0 + 5.11)
        = ((e0 + 5.11) ^ 2 - 5.11 * (e0 + 5.11) + 10.3) / (e0 + 5.11) := by
      field_simp; ring
    rw [h]
    apply div_pos _ hu
    nlinarith [sq_nonneg (e0 + 5.11 - 2.555)]
  have ha1 : e0 + 10.3 / (e0 + 5.11) < 90 := by
    have h : 90 - (e0 + 10.3 / (e0 + 5.11))
        = (95.11 * (e0 + 5.11) - (e0 + 5.11) ^ 2 - 10.3) / (e0 + 5.11) := by
      field_simp; ring
    have hpos : 0 < 90 - (e0 + 10.3 / (e0 + 5.11)) := by
      rw [h]
      apply div_pos _ hu
      nlinarith [mul_nonneg (by linarith : (0 : ℝ) ≤ e0 + 5.11 - 0.11)
        (by linarith : (0 : ℝ) ≤ 94.91 - (e0 + 5.11))]
    linarith
  have htan : 0 < Real.tan (deg2rad (e0 + 10.3 / (e0 + 5.11))) := by
    have hpi := Real.pi_pos
    apply Real.tan_pos_of_pos_of_lt_pi_div_two
    · delta deg2rad; positivity
    · delta deg2rad; nlinarith
  have hguard : e0 ≥ -1 * (SunRadius + atmosRefract) := by
    rw [neg_one_mul]; exact hg
  have hpos : 0 < atmosphericRefractionCorrection SunRadius pressure temperature
      atmosRefract e0 := by
    delta atmosphericRefractionCorrection
    simp only [if_pos hguard]
    have h273 : 0 < 273 + temperature := by linarith
    positivity
  refine ⟨ha0, ha1, by linarith, by positivity, by linarith, hpos, ?_⟩
  delta topocentricElevationAngleCorrected
  linarith

/-- Witness of the amended claim C26 at `pressure = 1000`, `temperature = 11`,
`spa.SunRadius = 0.26667`, `atmosRefract = 0.5667` and `e0 = 30`. -/
theorem refraction_positive_witness :
    (0 : ℝ) < 1000 ∧ (-273 : ℝ) < 11 ∧ (-5 : ℝ) ≤ 30 ∧ (30 : ℝ) ≤ 89.8
      ∧ -((0.26667 : ℝ) + 0.5667) ≤ 30
      ∧ 0 < atmosphericRefractionCorrection 0.26667 1000 11 0.5667 30 :=
  ⟨by norm_num, by norm_num, by norm_num, by norm_num, by norm_num,
    (refraction_positive 0.26667 1000 11 0.5667 30 (by norm_num) (by norm_num) (by norm_num)
      (by norm_num) (by norm_num)).2.2.2.2.2.1⟩

/-- Claim C27: with the function code `SampaNoIrr` and a sun position collaborator
that succeeds, `Calculate` returns nil, makes no call of the clear sky model, leaves
the stored model and the six irradiance fields as they were, and stores the fresh moon
position record and the geometry computed from it. -/
theorem calculate_noIrr_frame (c : Collaborators) (s : sampa)
    (hf : s.function = SampaNoIrr) (hspa : (c.spaCalculate (spaBeforeRun c s)).2 = none) :
    ∃ o m, sampa.Calculate c s = some o ∧ o.err = none
      ∧ o.calls = [Call.SetSPAFunction 0, Call.SetSPAFunction c.SpaZa, Call.spaCalculate]
      ∧ o.state.birdData = s.birdData
      ∧ o.state.dni = s.dni ∧ o.state.dniSul = s.dniSul
      ∧ o.state.ghi = s.ghi ∧ o.state.ghiSul = s.ghiSul
      ∧ o.state.dhi = s.dhi ∧ o.state.dhiSul = s.dhiSul
      ∧ o.state.spaData = (c.spaCalculate (spaBeforeRun c s)).1
      ∧ sampa.CalculateMpa c.SunRadius (sampa.afterSpa c s) = some m
      ∧ o.state.mpaData = some m
      ∧ o.state.ems = angularDistanceSunMoon o.state.spaData.zenith o.state.spaData.azimuth
          m.zenith m.azimuth
      ∧ o.state.rs = sunDiskRadius o.state.spaData.r
      ∧ o.state.rm = moonDiskRadius m.e m.pi m.capDelta
      ∧ o.state.aSul = (sulArea o.state.ems o.state.rs o.state.rm).1
      ∧ o.state.aSulPct = (sulArea o.state.ems o.state.rs o.state.rm).2 := by
  obtain ⟨m, hm, hc⟩ := (calculate_cases c s).2 hspa
  have hne : ¬ s.function = SampaAll := by
    rw [hf]; show ¬ (0 : ℕ) = 1; decide
  rw [if_neg hne] at hc
  exact ⟨_, m, hc, rfl, rfl, rfl, rfl, rfl, rfl, rfl, rfl, rfl, rfl, hm, rfl, rfl, rfl, rfl,
    rfl, rfl⟩

/-- Witness of claim C27: a receiver in the mode `SampaNoIrr` whose fields are all `7`
keeps its clear sky model and irradiances and gets a moon position record and the
sun radius of the reference distance. -/
theorem calculate_noIrr_frame_witness :
    (exampleSampa SampaNoIrr).function = SampaNoIrr
      ∧ (exampleCollaborators.spaCalculate
          (spaBeforeRun exampleCollaborators (exampleSampa SampaNoIrr))).2 = none
      ∧ ∃ o m, sampa.Calculate exampleCollaborators (exampleSampa SampaNoIrr) = some o
        ∧ o.calls = [Call.SetSPAFunction 0, Call.SetSPAFunction 0, Call.spaCalculate]
        ∧ o.state.birdData = exampleBird 7 ∧ o.state.dni = 7 ∧ o.state.dhiSul = 7
        ∧ o.state.mpaData = some m ∧ o.state.rs = sunDiskRadius 1.016024 := by
  obtain ⟨o, m, h1, _, h3, h4, h5, _, _, _, _, h10, h11, _, h13, _, h15, _⟩ :=
    calculate_noIrr_frame exampleCollaborators (exampleSampa SampaNoIrr) rfl rfl
  refine ⟨rfl, rfl, o, m, h1, h3, h4, h5, h10, h13, ?_⟩
  rw [h15, h11]
  rfl

end Sampa
